import Mathlib

/-!
A shallow embedding of the assessment-orchestration core of the cognihire
backend (FastAPI + SQLAlchemy), together with theorems settling the spec
claims about it.

Modelling conventions:
* Python numbers (ints and floats flowing through the scoring formulas) are
  embedded as exact rationals `ℚ`; decimal literals such as `0.8` denote the
  exact rational.
* JSON dicts are embedded as association lists or as structures whose
  optional fields model `dict.get` with its default.
* Database rows are Lean structures; a request-handling endpoint is a
  function `… → DB → Except ApiError α × DB` returning the response (or the
  HTTP error / escaped Python exception) together with the committed
  database state.  An exception raised before `db.commit()` leaves the
  database unchanged.
* `datetime.utcnow()` is modelled by a clock field `DB.now : Nat`
  (seconds); `uuid4()` draws are modelled by explicit fresh-identifier
  parameters.
* Presentation-only strings produced with Python float formatting (the
  `feedback` fields) are elided; every field a claim talks about is kept.
-/

namespace Cognihire

/-- Python runtime errors that can escape the handlers we model. -/
inductive PyError
  | zeroDivision
  | nameError (missing : String)
  | attributeError
deriving DecidableEq, Repr

/-- HTTP-level outcome of an endpoint: FastAPI HTTPExceptions plus escaped
Python exceptions (which FastAPI surfaces as a 500). -/
inductive ApiError
  | notFound (detail : String)
  | forbidden (detail : String)
  | badRequest (detail : String)
  | py (e : PyError)
deriving DecidableEq, Repr

/-- The raw-metrics dict a client submits for scoring.  Fields are `Option`
because the Python code reads them with `metrics.get(key, default)`. -/
structure RawMetrics where
  correct_responses : Option ℚ := none
  incorrect_responses : Option ℚ := none
  misses : Option ℚ := none
  false_positives : Option ℚ := none
  total_trials : Option ℚ := none
  average_response_time : Option ℚ := none
deriving DecidableEq, Repr

/-- games.py `GameScoreResponse` (the `feedback` presentation string is
elided, see the file header). -/
structure GameScoreResponse where
  score : ℚ
  normalized_score : ℚ
  trait_scores : List (String × ℚ)
  performance_level : String
deriving DecidableEq, Repr

/-- The uniform performance bucketing appearing verbatim in all three
scoring functions of games.py. -/
def performanceLevel (normalized_score : ℚ) : String :=
  if normalized_score ≥ 85 then "Excellent"
  else if normalized_score ≥ 70 then "Good"
  else if normalized_score ≥ 50 then "Average"
  else "Needs Improvement"

/-- games.py `score_nback_game` (lines 46-80).  The division
`misses / total_trials` is unguarded in the source, so a metrics record
carrying `total_trials = 0` raises `ZeroDivisionError`; hence the `Except`
result. -/
def score_nback_game (metrics : RawMetrics) : Except PyError GameScoreResponse :=
  let correct_responses := metrics.correct_responses.getD 0
  let incorrect_responses := metrics.incorrect_responses.getD 0
  let misses := metrics.misses.getD 0
  let false_positives := metrics.false_positives.getD 0
  let total_trials := metrics.total_trials.getD 1
  let total_responses := correct_responses + incorrect_responses + false_positives
  let accuracy := if total_responses > 0 then correct_responses / total_responses else 0
  if total_trials = 0 then .error .zeroDivision
  else
    let memory_score := accuracy * 0.8 + (1 - misses / total_trials) * 0.2
    let normalized_score := min 100 (max 0 (memory_score * 100))
    .ok { score := memory_score
          normalized_score := normalized_score
          trait_scores := [("memory", normalized_score)]
          performance_level := performanceLevel normalized_score }

/-- games.py `score_stroop_game` (lines 82-117).  Note the source computes
`speed_bonus = max(0, 1 - (average_response_time - 800) / 1000)` with no
upper clamp. -/
def score_stroop_game (metrics : RawMetrics) : GameScoreResponse :=
  let correct_responses := metrics.correct_responses.getD 0
  let incorrect_responses := metrics.incorrect_responses.getD 0
  let average_response_time := metrics.average_response_time.getD 1000
  let total_responses := correct_responses + incorrect_responses
  let accuracy := if total_responses > 0 then correct_responses / total_responses else 0
  let speed_bonus := max 0 (1 - (average_response_time - 800) / 1000)
  let attention_score := accuracy * 0.7 + speed_bonus * 0.3
  let normalized_score := min 100 (max 0 (attention_score * 100))
  { score := attention_score
    normalized_score := normalized_score
    trait_scores := [("attention", normalized_score * 0.8),
                     ("cognitive_flexibility", normalized_score * 0.2)]
    performance_level := performanceLevel normalized_score }

/-- games.py `score_reaction_time_game` (lines 119-154). -/
def score_reaction_time_game (metrics : RawMetrics) : GameScoreResponse :=
  let average_response_time := metrics.average_response_time.getD 500
  let correct_responses := metrics.correct_responses.getD 0
  let incorrect_responses := metrics.incorrect_responses.getD 0
  let total_responses := correct_responses + incorrect_responses
  let accuracy := if total_responses > 0 then correct_responses / total_responses else 0
  let speed_score := max 0 (1 - (average_response_time - 350) / 500)
  let processing_score := speed_score * accuracy
  let normalized_score := min 100 (max 0 (processing_score * 100))
  { score := processing_score
    normalized_score := normalized_score
    trait_scores := [("processing_speed", normalized_score)]
    performance_level := performanceLevel normalized_score }

/-- games.py `GAME_SCORING_FUNCTIONS` (lines 156-160): the dispatch table
from game code to scoring function.  The two total scorers are lifted into
`Except` so the table has one type. -/
def GAME_SCORING_FUNCTIONS (code : String) :
    Option (RawMetrics → Except PyError GameScoreResponse) :=
  if code = "NBACK" then some score_nback_game
  else if code = "STROOP" then some (fun m => .ok (score_stroop_game m))
  else if code = "REACTION_TIME" then some (fun m => .ok (score_reaction_time_game m))
  else none

/-! Persisted data model (backend/models.py), restricted to the fields the
orchestration core reads or writes. -/

/-- Assessment.status values (assessments.py validates against this set). -/
inductive AStatus
  | NOT_STARTED | IN_PROGRESS | COMPLETED | EXPIRED | CANCELLED
deriving DecidableEq, Repr

/-- AssessmentItem.status values. -/
inductive IStatus
  | PENDING | ACTIVE | EXPIRED | SUBMITTED
deriving DecidableEq, Repr

/-- A JSON scalar as it appears in the config snapshots. -/
inductive JVal
  | nat (n : Nat)
  | str (s : String)
deriving DecidableEq, Repr

/-- A config-snapshot dict, e.g. `{"n": 2, "trials": 20, "difficulty": "medium"}`. -/
abbrev ConfigSnapshot := List (String × JVal)

/-- One value of a job role's traits_json dict: the scheduler only reads
`.get("required", False)` from it. -/
structure TraitSpec where
  required : Bool := false
deriving DecidableEq, Repr

/-- A job role's traits_json dict as an association list; `[]` models the
empty dict `{}` (falsy in Python, like an absent value). -/
abbrev TraitsJson := List (String × TraitSpec)

structure JobRole where
  id : Nat
  traits_json : Option TraitsJson := none
deriving DecidableEq, Repr

structure Game where
  id : Nat
  code : String
deriving DecidableEq, Repr

/-- The `server_scoring` sub-record the score endpoint embeds into an
item's metrics_json (games.py lines 367-375; `feedback` elided). -/
structure ServerScoring where
  normalized_score : ℚ
  trait_scores : List (String × ℚ)
  performance_level : String
deriving DecidableEq, Repr

/-- An item's stored metrics_json: the raw client dict, possibly carrying a
`server_scoring` key. -/
structure MetricsJson where
  raw : RawMetrics
  server_scoring : Option ServerScoring := none
deriving DecidableEq, Repr

structure AssessmentItem where
  id : Nat
  assessment_id : Nat
  game_id : Nat
  order_index : Nat
  timer_seconds : Option Nat := none
  server_started_at : Option Nat := none
  server_deadline_at : Option Nat := none
  status : IStatus
  score : Option ℚ := none
  metrics_json : Option MetricsJson := none
  config_snapshot : ConfigSnapshot := []
deriving DecidableEq, Repr

/-- One integrity-flag record (telemetry.py `IntegrityFlag`); the evidence
dict is flattened into the four fields the code writes. -/
structure IntegrityFlagRec where
  flag_type : String
  severity : String
  description : String
  timestamp : Nat
  evidence_event_count : Nat
  evidence_threshold : Nat
  evidence_time_window : String
  evidence_last_event : Nat
deriving DecidableEq, Repr

/-- The Assessment.integrity_flags JSON dict: `flags := []` and
`last_updated := none` model the keys being absent (the code reads them
with `.get("flags", [])`). -/
structure IntegrityFlags where
  flags : List IntegrityFlagRec := []
  last_updated : Option Nat := none
deriving DecidableEq, Repr

structure Assessment where
  id : Nat
  candidate_id : Nat
  job_role_id : Nat
  status : AStatus
  started_at : Option Nat := none
  completed_at : Option Nat := none
  total_score : Option ℚ := none
  integrity_flags : IntegrityFlags := {}
deriving DecidableEq, Repr

/-- An audit-log row, restricted to the columns the telemetry counting
query filters on. -/
structure AuditLogEntry where
  id : Nat
  target_id : Nat
  action : String
  created_at : Nat
deriving DecidableEq, Repr

/-- An authenticated principal (a users row as consumed by the core). -/
structure User where
  id : Nat
  role : String
deriving DecidableEq, Repr

/-- The relational state the orchestration core touches, plus the server
clock. -/
structure DB where
  assessments : List Assessment := []
  items : List AssessmentItem := []
  games : List Game := []
  jobRoles : List JobRole := []
  users : List User := []
  auditLog : List AuditLogEntry := []
  now : Nat := 0
deriving DecidableEq, Repr

/-! Query helpers mirroring the `db.query(...).filter(...).first()` calls. -/

def findAssessment (db : DB) (aid : Nat) : Option Assessment :=
  (db.assessments.filter (fun a => a.id == aid)).head?

def findItem (db : DB) (iid : Nat) : Option AssessmentItem :=
  (db.items.filter (fun it => it.id == iid)).head?

def findGameById (db : DB) (gid : Nat) : Option Game :=
  (db.games.filter (fun g => g.id == gid)).head?

def findGameByCode (db : DB) (code : String) : Option Game :=
  (db.games.filter (fun g => g.code == code)).head?

def findJobRole (db : DB) (rid : Nat) : Option JobRole :=
  (db.jobRoles.filter (fun r => r.id == rid)).head?

/-- The recurring access check
`if current_user.role == "CANDIDATE" and assessment.candidate_id != current_user.id`.
When the assessment lookup returned `None`, evaluating
`assessment.candidate_id` raises `AttributeError` (this situation is
reachable from the item-based endpoints, which never 404 on a dangling
assessment reference). -/
def checkCandidateAccess (p : User) (a? : Option Assessment) : Except ApiError Unit :=
  if p.role == "CANDIDATE" then
    match a? with
    | none => .error (.py .attributeError)
    | some a => if a.candidate_id ≠ p.id then .error (.forbidden "Access denied") else .ok ()
  else .ok ()

/-- The `get_current_admin_user` dependency (auth.py): any non-ADMIN
principal is rejected before the handler body runs. -/
def requireAdmin (p : User) : Except ApiError Unit :=
  if p.role ≠ "ADMIN" then .error (.forbidden "Not enough permissions") else .ok ()

/-! Item Scheduler: assessments.py `_create_assessment_items` (lines 404-476). -/

/-- `traits.get(name, {}).get("required", False)`. -/
def traitRequired (traits : TraitsJson) (name : String) : Bool :=
  match traits.lookup name with
  | some d => d.required
  | none => false

/-- The fixed trait evaluation order with its per-trait game code, timer and
config snapshot (the three if-blocks at assessments.py lines 430-476). -/
def traitGameTable : List (String × String × Nat × ConfigSnapshot) :=
  [("memory", "NBACK", 300,
      [("n", .nat 2), ("trials", .nat 20), ("difficulty", .str "medium")]),
   ("attention", "STROOP", 240,
      [("trials", .nat 30), ("difficulty", .str "medium")]),
   ("processing_speed", "REACTION_TIME", 180,
      [("trials", .nat 25), ("difficulty", .str "medium")])]

/-- One trait if-block: append an item (with the running `order_index`
counter equal to the number of items created so far) when the trait is
required and its game code resolves in the catalog; otherwise skip. -/
def traitStep (a : Assessment) (db : DB) (traits : TraitsJson)
    (acc : List AssessmentItem) (e : String × String × Nat × ConfigSnapshot) :
    List AssessmentItem :=
  match e with
  | (trait, gameCode, timer, cfg) =>
    if traitRequired traits trait then
      match findGameByCode db gameCode with
      | some g =>
          acc ++ [{ id := 0, assessment_id := a.id, game_id := g.id,
                    order_index := acc.length, timer_seconds := some timer,
                    status := .PENDING, config_snapshot := cfg }]
      | none => acc
    else acc

/-- The trait-profile branch of `_create_assessment_items`. -/
def traitItems (a : Assessment) (db : DB) (traits : TraitsJson) : List AssessmentItem :=
  traitGameTable.foldl (traitStep a db traits) []

/-- games looped over in the default fallback branch. -/
def defaultGameCodes : List String := ["NBACK", "STROOP", "REACTION_TIME"]

/-- The default fallback branch: `for i, game_code in enumerate(default_games)`
creates one item per catalog-resolvable code, with `order_index = i` (the
enumerate position, even when an earlier code was skipped). -/
def defaultItems (a : Assessment) (db : DB) : List AssessmentItem :=
  defaultGameCodes.enum.filterMap fun p =>
    (findGameByCode db p.2).map fun g =>
      { id := 0, assessment_id := a.id, game_id := g.id, order_index := p.1,
        timer_seconds := some 300, status := .PENDING, config_snapshot := [] }

/-- Give the k-th created item the k-th drawn uuid (modelling the
sequential `uuid.uuid4()` calls). -/
def assignIds (fresh : Nat → Nat) (items : List AssessmentItem) : List AssessmentItem :=
  items.enum.map fun p => { p.2 with id := fresh p.1 }

/-- assessments.py `_create_assessment_items`: items are created from the
job role's trait profile, with the default fallback taken exactly when the
job role is missing or its traits_json is `None`/`{}` (Python truthiness
of `not job_role or not job_role.traits_json`). -/
def _create_assessment_items (a : Assessment) (db : DB) (fresh : Nat → Nat) :
    List AssessmentItem :=
  match findJobRole db a.job_role_id with
  | none => assignIds fresh (defaultItems a db)
  | some jr =>
    match jr.traits_json with
    | none => assignIds fresh (defaultItems a db)
    | some traits =>
      if traits.isEmpty then assignIds fresh (defaultItems a db)
      else assignIds fresh (traitItems a db traits)

/-! Completion Aggregator: assessments.py `_check_assessment_completion`
(lines 478-507). -/

/-- The items the aggregator loads for the assessment. -/
def aggItems (a : Assessment) (db : DB) : List AssessmentItem :=
  db.items.filter (fun it => it.assessment_id == a.id)

/-- The total score the aggregator computes: the mean of the non-null item
scores, or 0 when every score is null (lines 490-502). -/
def aggTotal (a : Assessment) (db : DB) : ℚ :=
  let valid_scores := (aggItems a db).filterMap (fun it => it.score)
  if valid_scores.length > 0 then valid_scores.sum / valid_scores.length else 0

/-- The per-row effect of the aggregator's completion write. -/
def aggUpd (a : Assessment) (db : DB) : Assessment → Assessment := fun x =>
  if x.id == a.id then
    { x with total_score := some (aggTotal a db), status := .COMPLETED,
             completed_at := some db.now }
  else x

def _check_assessment_completion (a : Assessment) (db : DB) : DB :=
  let items := aggItems a db
  if items.isEmpty then db
  else
    let submitted_count := items.countP (fun it => it.status == .SUBMITTED)
    if submitted_count = items.length then
      { db with assessments := db.assessments.map (aggUpd a db) }
    else db

/-! Session Manager endpoints (assessments.py). -/

/-- The NOT_STARTED row POST /assessments persists (lines 90-97). -/
def newAssessment (newId candidate_id job_role_id : Nat) : Assessment :=
  { id := newId, candidate_id := candidate_id, job_role_id := job_role_id,
    status := .NOT_STARTED, integrity_flags := {} }

/-- body of POST /assessments (lines 61-116); tenant bootstrapping and the
audit log are elided, the response payload is the created row. -/
def create_assessment (newId : Nat) (candidate_id job_role_id : Nat) (p : User)
    (db : DB) : Except ApiError Assessment × DB :=
  match requireAdmin p with
  | .error e => (.error e, db)
  | .ok _ =>
    match (db.users.filter (fun u => u.id == candidate_id && u.role == "CANDIDATE")).head? with
    | none => (.error (.notFound "Candidate not found"), db)
    | some _ =>
      match findJobRole db job_role_id with
      | none => (.error (.notFound "Job role not found"), db)
      | some _ =>
        let a := newAssessment newId candidate_id job_role_id
        (.ok a, { db with assessments := db.assessments ++ [a] })

/-- PUT /assessments body (lines 19-21): both fields optional; a status
value, when present, arrives as a string. -/
structure AssessmentUpdate where
  status : Option String := none
  total_score : Option ℚ := none
deriving DecidableEq, Repr

def validStatusStrings : List String :=
  ["NOT_STARTED", "IN_PROGRESS", "COMPLETED", "EXPIRED", "CANCELLED"]

def parseAStatus (s : String) : Option AStatus :=
  if s = "NOT_STARTED" then some .NOT_STARTED
  else if s = "IN_PROGRESS" then some .IN_PROGRESS
  else if s = "COMPLETED" then some .COMPLETED
  else if s = "EXPIRED" then some .EXPIRED
  else if s = "CANCELLED" then some .CANCELLED
  else none

/-- PUT /assessments/{id} (lines 171-212): an admin may write any of the
five status values (and any total_score) onto any assessment, with no
transition check.  `if assessment_data.status:` is Python truthiness, so an
empty string skips both validation and assignment. -/
def update_assessment (aid : Nat) (data : AssessmentUpdate) (p : User) (db : DB) :
    Except ApiError Unit × DB :=
  match requireAdmin p with
  | .error e => (.error e, db)
  | .ok _ =>
    match findAssessment db aid with
    | none => (.error (.notFound "Assessment not found"), db)
    | some a =>
      let statusTruthy := data.status.isSome ∧ data.status ≠ some ""
      if statusTruthy then
        match parseAStatus (data.status.getD "") with
        | none => (.error (.badRequest "Invalid status"), db)
        | some st =>
          let a1 := { a with
            status := st,
            completed_at :=
              if st = .COMPLETED ∧ a.completed_at = none
              then some db.now else a.completed_at }
          let a2 := match data.total_score with
                    | some ts => { a1 with total_score := some ts }
                    | none => a1
          (.ok (), { db with assessments := db.assessments.map fun x =>
                      if x.id == aid then a2 else x })
      else
        let a2 := match data.total_score with
                  | some ts => { a with total_score := some ts }
                  | none => a
        (.ok (), { db with assessments := db.assessments.map fun x =>
                    if x.id == aid then a2 else x })

/-- DELETE /assessments/{id} (lines 214-241): only NOT_STARTED assessments
may be deleted.  The DB enforces primary-key uniqueness, so deleting the
fetched row is removal by id. -/
def delete_assessment (aid : Nat) (p : User) (db : DB) : Except ApiError Unit × DB :=
  match requireAdmin p with
  | .error e => (.error e, db)
  | .ok _ =>
    match findAssessment db aid with
    | none => (.error (.notFound "Assessment not found"), db)
    | some a =>
      if a.status ≠ .NOT_STARTED then
        (.error (.badRequest "Cannot delete assessment that has been started"), db)
      else
        (.ok (), { db with assessments := db.assessments.filter (fun x => !(x.id == aid)) })

/-- The status/started_at write of POST /assessments/{id}/start. -/
def startAUpd (aid now : Nat) : Assessment → Assessment := fun x =>
  if x.id == aid then { x with status := .IN_PROGRESS, started_at := some now } else x

/-- POST /assessments/{id}/start (lines 243-280): flips NOT_STARTED to
IN_PROGRESS, stamps started_at, and materializes the items; all in one
commit. -/
def start_assessment (aid : Nat) (fresh : Nat → Nat) (p : User) (db : DB) :
    Except ApiError String × DB :=
  match findAssessment db aid with
  | none => (.error (.notFound "Assessment not found"), db)
  | some a =>
    match checkCandidateAccess p (some a) with
    | .error e => (.error e, db)
    | .ok _ =>
      if a.status ≠ .NOT_STARTED then
        (.error (.badRequest "Assessment has already been started"), db)
      else
        let newItems := _create_assessment_items a db fresh
        (.ok "Assessment started successfully",
         { db with
             assessments := db.assessments.map (startAUpd aid db.now),
             items := db.items ++ newItems })

/-! Item Timer / State Machine endpoints (assessments.py). -/

/-- The activation write of POST /assessments/items/{id}/start.  Note
`if item.timer_seconds:` is Python truthiness: a timer of `None` or `0`
leaves the deadline unset. -/
def startItemUpd (iid now : Nat) : AssessmentItem → AssessmentItem := fun it =>
  if it.id == iid then
    { it with status := .ACTIVE, server_started_at := some now,
              server_deadline_at :=
                match it.timer_seconds with
                | some t => if t ≠ 0 then some (now + t) else none
                | none => none }
  else it

/-- POST /assessments/items/{id}/start (lines 319-350). -/
def start_assessment_item (iid : Nat) (p : User) (db : DB) :
    Except ApiError Unit × DB :=
  match findItem db iid with
  | none => (.error (.notFound "Assessment item not found"), db)
  | some item =>
    match checkCandidateAccess p (findAssessment db item.assessment_id) with
    | .error e => (.error e, db)
    | .ok _ =>
      if item.status ≠ .PENDING then
        (.error (.badRequest "Item is not in pending status"), db)
      else
        (.ok (), { db with items := db.items.map (startItemUpd iid db.now) })

/-- POST /assessments/items/{id}/submit body (lines 56-59). -/
structure SubmitItemRequest where
  score : ℚ
  metrics_json : MetricsJson
deriving DecidableEq, Repr

/-- The submission write of POST /assessments/items/{id}/submit. -/
def submitUpd (iid : Nat) (sub : SubmitItemRequest) : AssessmentItem → AssessmentItem :=
  fun it =>
    if it.id == iid then
      { it with status := .SUBMITTED, score := some sub.score,
                metrics_json := some sub.metrics_json }
    else it

/-- POST /assessments/items/{id}/submit (lines 352-382): marks the item
SUBMITTED storing the client-supplied score and metrics verbatim (no
scoring-engine call), commits, then runs the completion aggregator.  When
the item's assessment reference dangles, a CANDIDATE principal crashes
before the permission check; an ADMIN principal crashes inside the
aggregator, after the item update was already committed. -/
def submit_assessment_item (iid : Nat) (sub : SubmitItemRequest) (p : User) (db : DB) :
    Except ApiError String × DB :=
  match findItem db iid with
  | none => (.error (.notFound "Assessment item not found"), db)
  | some item =>
    let a? := findAssessment db item.assessment_id
    match checkCandidateAccess p a? with
    | .error e => (.error e, db)
    | .ok _ =>
      if item.status = .ACTIVE ∨ item.status = .PENDING then
        let db1 := { db with items := db.items.map (submitUpd iid sub) }
        match a? with
        | none => (.error (.py .attributeError), db1)
        | some a => (.ok "Assessment item submitted successfully",
                     _check_assessment_completion a db1)
      else
        (.error (.badRequest "Item cannot be submitted"), db)

/-- The item write of POST /games/score (games.py lines 365-375): stores
the engine's score and the raw metrics merged with the `server_scoring`
sub-record; the item's status is not touched. -/
def scoreUpd (iid : Nat) (raw : RawMetrics) (resp : GameScoreResponse) :
    AssessmentItem → AssessmentItem := fun it =>
  if it.id == iid then
    { it with score := some resp.score,
              metrics_json := some
                { raw := raw,
                  server_scoring := some
                    { normalized_score := resp.normalized_score,
                      trait_scores := resp.trait_scores,
                      performance_level := resp.performance_level } } }
  else it

/-- POST /games/score (games.py lines 334-379): the server-side Scoring
Engine endpoint.  Dispatches on the item's game code, updates the item's
score and writes the raw metrics merged with a `server_scoring` sub-record;
it never touches the item's status. -/
def score_game_performance (assessment_item_id : Nat) (raw_metrics : RawMetrics)
    (p : User) (db : DB) : Except ApiError GameScoreResponse × DB :=
  match findItem db assessment_item_id with
  | none => (.error (.notFound "Assessment item not found"), db)
  | some item =>
    match findGameById db item.game_id with
    | none => (.error (.notFound "Game not found"), db)
    | some game =>
      match checkCandidateAccess p (findAssessment db item.assessment_id) with
      | .error e => (.error e, db)
      | .ok _ =>
        match GAME_SCORING_FUNCTIONS game.code with
        | none =>
          (.error (.badRequest ("No scoring function available for game " ++ game.code)), db)
        | some scoring_function =>
          match scoring_function raw_metrics with
          | .error e => (.error (.py e), db)
          | .ok resp =>
            (.ok resp,
             { db with items := db.items.map (scoreUpd assessment_item_id raw_metrics resp) })

/-! Telemetry Integrity Monitor (telemetry.py). -/

/-- telemetry.py `TelemetryEvent` request body (the free-form `data` and
`client_info` payloads are opaque to the threshold logic and are elided). -/
structure TelemetryEvent where
  assessment_id : Nat
  item_id : Option Nat := none
  event_type : String
  timestamp : Nat
deriving DecidableEq, Repr

/-- telemetry.py `INTEGRITY_THRESHOLDS` (lines 41-48): event type to
(trigger count, severity). -/
def INTEGRITY_THRESHOLDS (event_type : String) : Option (Nat × String) :=
  if event_type = "WINDOW_BLUR" then some (5, "MEDIUM")
  else if event_type = "MULTIPLE_TABS" then some (1, "HIGH")
  else if event_type = "COPY_PASTE" then some (3, "MEDIUM")
  else if event_type = "RIGHT_CLICK" then some (5, "LOW")
  else if event_type = "DEV_TOOLS" then some (1, "CRITICAL")
  else if event_type = "TAB_SWITCH" then some (3, "MEDIUM")
  else none

/-- telemetry.py `_check_integrity_violation` (lines 267-298).  The module
imports only `datetime` from the datetime package (line 6), yet line 280
evaluates `timedelta(minutes=30)`: whenever the event type has a threshold
entry, the function raises `NameError: name 'timedelta' is not defined`
before the recent-events query runs.  The count-and-flag logic below the
lookup (lines 277-296) is therefore unreachable; the reachable behavior is
the `None` fast path for unlisted event types. -/
def _check_integrity_violation (event : TelemetryEvent) :
    Except PyError (Option IntegrityFlagRec) :=
  match INTEGRITY_THRESHOLDS event.event_type with
  | none => .ok none
  | some _ => .error (.nameError "timedelta")

/-- Python's `event_type.lower().replace('_', ' ')` for the ASCII event
names, computed character-wise (the replaced pattern is a single char). -/
def pyLowerSpaced (s : String) : String :=
  String.mk (s.data.map (fun c => if c = '_' then ' ' else c.toLower))

/-- Modelled from the spec: the sliding-window count-and-flag step of
`ingest` (spec section 4.6), which telemetry.py lines 277-296 implement but
never reach because of the missing `timedelta` import.  It is the source's
dead text read with `timedelta` imported: count audit-log rows for the
assessment with this event action inside the trailing 30 minutes (the
freshly added row counted too, as the spec reads it; note database.py
builds sessions with autoflush off, so the live query would see the
pending row only after a flush or commit), and build the flag when the
count reaches the trigger. -/
def _check_integrity_violation_intended (event : TelemetryEvent) (db : DB)
    (pendingLog : AuditLogEntry) : Option IntegrityFlagRec :=
  match INTEGRITY_THRESHOLDS event.event_type with
  | none => none
  | some t =>
    let recent_events :=
      ((db.auditLog ++ [pendingLog]).filter fun e =>
        e.target_id == event.assessment_id &&
        e.action == ("TELEMETRY_" ++ event.event_type) &&
        decide (e.created_at ≥ db.now - 30 * 60)).length
    if recent_events ≥ t.1 then
      some { flag_type := event.event_type, severity := t.2,
             description := "Excessive " ++ pyLowerSpaced event.event_type
               ++ " events detected (" ++ toString recent_events ++ " in last 30 minutes)",
             timestamp := db.now,
             evidence_event_count := recent_events,
             evidence_threshold := t.1,
             evidence_time_window := "30 minutes",
             evidence_last_event := event.timestamp }
    else none

/-- Appending one integrity flag to an assessment's flag collection
(telemetry.py lines 92-98 and 121-127 both perform this write). -/
def flagUpd (aid : Nat) (fl : IntegrityFlagRec) (now : Nat) : Assessment → Assessment :=
  fun x =>
    if x.id == aid then
      { x with integrity_flags :=
          { flags := x.integrity_flags.flags ++ [fl], last_updated := some now } }
    else x

/-- The audit-log row `record_telemetry_event` builds for an event (its
target is the item when one is given, else the assessment). -/
def telemetryLogEntry (event : TelemetryEvent) (logId : Nat) (db : DB) : AuditLogEntry :=
  { id := logId,
    target_id := event.item_id.getD event.assessment_id,
    action := "TELEMETRY_" ++ event.event_type,
    created_at := db.now }

/-- POST /telemetry/events (telemetry.py lines 50-106).  The pending log
row and any integrity flag are committed together at the end; a `NameError`
escaping `_check_integrity_violation` aborts the request before the commit,
so nothing is recorded. -/
def record_telemetry_event (event : TelemetryEvent) (logId : Nat) (p : User) (db : DB) :
    Except ApiError String × DB :=
  match findAssessment db event.assessment_id with
  | none => (.error (.notFound "Assessment not found"), db)
  | some a =>
    match checkCandidateAccess p (some a) with
    | .error e => (.error e, db)
    | .ok _ =>
      let log_entry := telemetryLogEntry event logId db
      match _check_integrity_violation event with
      | .error e => (.error (.py e), db)
      | .ok flag? =>
        let db1 := { db with auditLog := db.auditLog ++ [log_entry] }
        match flag? with
        | none => (.ok "recorded", db1)
        | some fl =>
          (.ok "recorded",
           { db1 with assessments := db1.assessments.map (flagUpd a.id fl db.now) })

/-- POST /telemetry/integrity/{id}/flag (lines 108-145): manual reviewer
flag, appended directly, bypassing threshold logic. -/
def flag_integrity_violation (aid : Nat) (fl : IntegrityFlagRec) (p : User) (db : DB) :
    Except ApiError Unit × DB :=
  match requireAdmin p with
  | .error e => (.error e, db)
  | .ok _ =>
    match findAssessment db aid with
    | none => (.error (.notFound "Assessment not found"), db)
    | some _ =>
      (.ok (), { db with assessments := db.assessments.map (flagUpd aid fl db.now) })

/-- One invocation of a state-mutating endpoint of the assessment, games
and telemetry routers, with its arguments.  `uuid4()` draws appear as
explicit identifier arguments.  Admin candidate deletion, which also
deletes assessment rows, is the `OpX.deleteCandidate` case of the
extension `OpX` below. -/
inductive Op
  | createA (newId : Nat) (candidate_id job_role_id : Nat) (p : User)
  | updateA (aid : Nat) (data : AssessmentUpdate) (p : User)
  | deleteA (aid : Nat) (p : User)
  | startA (aid : Nat) (fresh : Nat → Nat) (p : User)
  | startItem (iid : Nat) (p : User)
  | submitItem (iid : Nat) (sub : SubmitItemRequest) (p : User)
  | scoreGame (iid : Nat) (raw : RawMetrics) (p : User)
  | telemetry (event : TelemetryEvent) (logId : Nat) (p : User)
  | manualFlag (aid : Nat) (fl : IntegrityFlagRec) (p : User)

/-- The database state an operation leaves behind (its committed effect,
whether the response was a success or an error). -/
def runOp : Op → DB → DB
  | .createA newId cid rid p, db => (create_assessment newId cid rid p db).2
  | .updateA aid data p, db => (update_assessment aid data p db).2
  | .deleteA aid p, db => (delete_assessment aid p db).2
  | .startA aid fresh p, db => (start_assessment aid fresh p db).2
  | .startItem iid p, db => (start_assessment_item iid p db).2
  | .submitItem iid sub p, db => (submit_assessment_item iid sub p db).2
  | .scoreGame iid raw p, db => (score_game_performance iid raw p db).2
  | .telemetry event logId p, db => (record_telemetry_event event logId p db).2
  | .manualFlag aid fl p, db => (flag_integrity_violation aid fl p db).2

/-- Marks the admin PUT /assessments/{id} endpoint, the one operation that
writes arbitrary status values. -/
def Op.isAdminUpdate : Op → Bool
  | .updateA _ _ _ => true
  | _ => false

/-- `uuid4()` never collides with an existing row: a freshly drawn
assessment id is no existing assessment's id and is referenced by no
existing item. -/
def opFresh : Op → DB → Prop
  | .createA newId _ _ _, db =>
      (∀ a ∈ db.assessments, a.id ≠ newId) ∧ (∀ it ∈ db.items, it.assessment_id ≠ newId)
  | _, _ => True

/-- The extended operation universe: every `Op` plus the admin candidate
deletion, covering all mounted endpoints that write assessment or item
rows. -/
inductive OpX
  | lifecycle (op : Op)
  | deleteCandidate (cid : Nat) (p : User)

/-- The admin PUT /assessments/{id} endpoint inside the extended
universe. -/
def OpX.isAdminUpdate : OpX → Bool
  | .lifecycle op => op.isAdminUpdate
  | .deleteCandidate _ _ => false

/-- A status move the spec's forward chain allows in one step: stay, start
(NOT_STARTED to IN_PROGRESS), or complete (IN_PROGRESS to COMPLETED). -/
def allowedTransition (s t : AStatus) : Prop :=
  t = s ∨ (s = .NOT_STARTED ∧ t = .IN_PROGRESS) ∨ (s = .IN_PROGRESS ∧ t = .COMPLETED)

/-- The inductive invariant of lifecycle-only traces (no admin status
override): every assessment sits in the forward chain, and a NOT_STARTED
assessment has no items (items exist only once `start` ran). -/
def LifecycleInv (db : DB) : Prop :=
  ∀ a ∈ db.assessments,
    (a.status = .NOT_STARTED ∨ a.status = .IN_PROGRESS ∨ a.status = .COMPLETED) ∧
    (a.status = .NOT_STARTED → ∀ it ∈ db.items, it.assessment_id ≠ a.id)

/-- A finite sequence of lifecycle operations (state-mutating endpoints
without the admin status override), each with fresh uuid draws, run in
order. -/
inductive LifecycleSteps : DB → DB → Prop
  | refl (db : DB) : LifecycleSteps db db
  | step (db db2 db3 : DB) (op : Op) (hop : op.isAdminUpdate = false)
      (hfr : opFresh op db) (hrun : runOp op db = db2)
      (rest : LifecycleSteps db2 db3) : LifecycleSteps db db3

/-- Status pairs observable across a whole lifecycle trace: stay, or move
forward along NOT_STARTED to IN_PROGRESS to COMPLETED (possibly skipping
IN_PROGRESS when an assessment is deleted and recreated in between). -/
def allowedReach (s t : AStatus) : Prop :=
  t = s ∨ (s = .NOT_STARTED ∧ (t = .IN_PROGRESS ∨ t = .COMPLETED)) ∨
  (s = .IN_PROGRESS ∧ t = .COMPLETED)

/-! Concrete instances used to witness or refute the claims. -/

def uAdmin : User := { id := 9, role := "ADMIN" }

def uCand : User := { id := 2, role := "CANDIDATE" }

/-- The N-back scenario record of spec section 8. -/
def mC5 : RawMetrics :=
  { correct_responses := some 16, incorrect_responses := some 2,
    misses := some 1, false_positives := some 1, total_trials := some 20 }

/-- The response the N-back scorer produces on `mC5`. -/
def rC5 : GameScoreResponse :=
  { score := 1641/1900, normalized_score := 1641/19,
    trait_scores := [("memory", 1641/19)], performance_level := "Excellent" }

/-- A Stroop record with zero accuracy and a 300 ms average response time
(faster than the 800 ms optimum, driving the unclamped speed bonus to 1.5). -/
def m6 : RawMetrics :=
  { correct_responses := some 0, incorrect_responses := some 10,
    average_response_time := some 300 }

/-- Modelled from the spec (section 4.4 wording of claim C6): the Stroop
normalized score with the speed bonus clamped from above as well, for
comparison against the source's `score_stroop_game`. -/
def stroop_normalized_spec (m : RawMetrics) : ℚ :=
  let correct := m.correct_responses.getD 0
  let incorrect := m.incorrect_responses.getD 0
  let avg := m.average_response_time.getD 1000
  let accuracy := if correct + incorrect > 0 then correct / (correct + incorrect) else 0
  let speed_bonus := min 1 (max 0 (1 - (avg - 800) / 1000))
  min 100 (max 0 ((accuracy * 0.7 + speed_bonus * 0.3) * 100))

/-- A record with every response count zero and an explicit total_trials 0. -/
def m9 : RawMetrics :=
  { correct_responses := some 0, incorrect_responses := some 0,
    misses := some 0, false_positives := some 0, total_trials := some 0 }

/-- A zero-response record with nonzero total_trials. -/
def m9b : RawMetrics :=
  { correct_responses := some 0, incorrect_responses := some 0,
    misses := some 2, false_positives := some 0, total_trials := some 10,
    average_response_time := some 400 }

def gNback : Game := { id := 1, code := "NBACK" }

def gStroop : Game := { id := 2, code := "STROOP" }

def gReaction : Game := { id := 3, code := "REACTION_TIME" }

/-- A job role whose trait profile is nonempty yet marks no trait required. -/
def jrNoneRequired : JobRole :=
  { id := 5, traits_json := some [("memory", { required := false })] }

def db4 : DB := { games := [gNback, gStroop, gReaction], jobRoles := [jrNoneRequired] }

def a4 : Assessment := { id := 7, candidate_id := 2, job_role_id := 5, status := .NOT_STARTED }

/-- A catalog missing the STROOP game (no job roles, so the scheduler takes
the default fallback branch). -/
def db8 : DB := { games := [gNback, gReaction] }

def a8 : Assessment := { id := 7, candidate_id := 2, job_role_id := 5, status := .NOT_STARTED }

/-- Full default catalog with no job roles at all. -/
def db4x : DB := { games := [gNback, gStroop, gReaction] }

def a4x : Assessment := { id := 7, candidate_id := 2, job_role_id := 99, status := .NOT_STARTED }

/-- A job role requiring only the memory trait. -/
def jrMemOnly : JobRole :=
  { id := 5, traits_json := some [("memory", { required := true })] }

def dbMem : DB := { games := [gNback, gStroop, gReaction], jobRoles := [jrMemOnly] }

def aMem : Assessment := { id := 8, candidate_id := 2, job_role_id := 5, status := .NOT_STARTED }

/-- An assessment already COMPLETED, for the status-rollback counterexample. -/
def a3 : Assessment :=
  { id := 1, candidate_id := 2, job_role_id := 3, status := .COMPLETED,
    started_at := some 10, completed_at := some 20, total_score := some 50 }

def db3 : DB := { assessments := [a3], now := 90 }

/-- A game whose code has no registered scoring function. -/
def gTetris : Game := { id := 4, code := "TETRIS" }

def item1 : AssessmentItem :=
  { id := 10, assessment_id := 1, game_id := 4, order_index := 0,
    timer_seconds := some 300, status := .ACTIVE }

def a1c : Assessment :=
  { id := 1, candidate_id := 2, job_role_id := 3, status := .IN_PROGRESS,
    started_at := some 10 }

def db1c : DB :=
  { assessments := [a1c], items := [item1], games := [gTetris], now := 77 }

def sub1 : SubmitItemRequest :=
  { score := 55, metrics_json := { raw := { correct_responses := some 5 } } }

/-- Telemetry scenario state: five WINDOW_BLUR events already recorded for
assessment 1 inside the trailing 30-minute window. -/
def dbT : DB :=
  { assessments := [{ id := 1, candidate_id := 2, job_role_id := 3,
                      status := .IN_PROGRESS }],
    auditLog := (List.range 5).map (fun k =>
      { id := k, target_id := 1, action := "TELEMETRY_WINDOW_BLUR",
        created_at := 100 + k }),
    now := 200 }

/-- The sixth WINDOW_BLUR event. -/
def ev6 : TelemetryEvent :=
  { assessment_id := 1, event_type := "WINDOW_BLUR", timestamp := 199 }

/-- An in-progress assessment with one ACTIVE and one already-SUBMITTED
item, for exercising the completion aggregator. -/
def a7 : Assessment :=
  { id := 1, candidate_id := 2, job_role_id := 3, status := .IN_PROGRESS,
    started_at := some 10 }

def item7a : AssessmentItem :=
  { id := 10, assessment_id := 1, game_id := 1, order_index := 0,
    timer_seconds := some 300, status := .ACTIVE }

def item7b : AssessmentItem :=
  { id := 11, assessment_id := 1, game_id := 3, order_index := 1,
    timer_seconds := some 300, status := .SUBMITTED, score := some 80 }

def db7 : DB :=
  { assessments := [a7], items := [item7a, item7b],
    games := [gNback, gReaction], now := 88 }

def sub7 : SubmitItemRequest := { score := 60, metrics_json := { raw := {} } }

/-- An ACTIVE item whose game is the Stroop entry, for the score endpoint. -/
def itemS : AssessmentItem :=
  { id := 20, assessment_id := 1, game_id := 2, order_index := 0,
    timer_seconds := some 240, status := .ACTIVE }

def dbS : DB := { assessments := [a7], items := [itemS], games := [gStroop], now := 50 }

/-! Generic facts about the `(l.filter p).head?` query pattern and the
`l.map f` row-update pattern used by every endpoint. -/

lemma head_filter_mem {α : Type} {l : List α} {p : α → Bool} {a : α}
    (h : (l.filter p).head? = some a) : a ∈ l ∧ p a = true :=
  List.mem_filter.mp (List.mem_of_mem_head? (by simp [h]))

lemma head_filter_map {α : Type} (l : List α) (f : α → α) (p : α → Bool)
    (hp : ∀ x, p (f x) = p x) :
    ((l.map f).filter p).head? = ((l.filter p).head?).map f := by
  rw [List.filter_map, List.head?_map]
  exact congrArg (fun t => (List.head? t).map f) (List.filter_congr (fun x _ => hp x))

lemma findAssessment_some {db : DB} {aid : Nat} {a : Assessment}
    (h : findAssessment db aid = some a) : a ∈ db.assessments ∧ a.id = aid := by
  unfold findAssessment at h
  have h2 := head_filter_mem h
  exact ⟨h2.1, by simpa using h2.2⟩

lemma findItem_some {db : DB} {iid : Nat} {it : AssessmentItem}
    (h : findItem db iid = some it) : it ∈ db.items ∧ it.id = iid := by
  unfold findItem at h
  have h2 := head_filter_mem h
  exact ⟨h2.1, by simpa using h2.2⟩

lemma findAssessment_map {db db2 : DB} {f : Assessment → Assessment} (aid : Nat)
    (hf : ∀ x, (f x).id = x.id) (h2 : db2.assessments = db.assessments.map f) :
    findAssessment db2 aid = (findAssessment db aid).map f := by
  unfold findAssessment
  rw [h2]
  exact head_filter_map _ f _ (fun x => by simp [hf x])

lemma findItem_map {db db2 : DB} {f : AssessmentItem → AssessmentItem} (iid : Nat)
    (hf : ∀ x, (f x).id = x.id) (h2 : db2.items = db.items.map f) :
    findItem db2 iid = (findItem db iid).map f := by
  unfold findItem
  rw [h2]
  exact head_filter_map _ f _ (fun x => by simp [hf x])

lemma findAssessment_append {db db2 : DB} {l2 : List Assessment} {aid : Nat} {a : Assessment}
    (h2 : db2.assessments = db.assessments ++ l2)
    (h : findAssessment db aid = some a) :
    findAssessment db2 aid = some a := by
  unfold findAssessment at h ⊢
  rw [h2, List.filter_append, List.head?_append, h]
  rfl

lemma findAssessment_filter_ne {db db2 : DB} {aid0 aid : Nat}
    (h2 : db2.assessments = db.assessments.filter (fun x => !(x.id == aid0)))
    (hne : aid ≠ aid0) :
    findAssessment db2 aid = findAssessment db aid := by
  unfold findAssessment
  rw [h2, List.filter_filter]
  congr 1
  apply List.filter_congr
  intro x _
  by_cases hx : x.id = aid
  · simp [hx, hne]
  · simp [hx]

lemma findAssessment_filter_self {db db2 : DB} {aid0 : Nat}
    (h2 : db2.assessments = db.assessments.filter (fun x => !(x.id == aid0))) :
    findAssessment db2 aid0 = none := by
  unfold findAssessment
  rw [h2, List.filter_filter]
  have : db.assessments.filter (fun x => (x.id == aid0) && !(x.id == aid0)) = [] := by
    apply List.filter_eq_nil_iff.mpr
    intro x _
    by_cases hx : x.id = aid0 <;> simp [hx]
  rw [this]
  rfl

/-! Structural facts about the Item Scheduler's output. -/

lemma assignIds_map_field {β : Type} (fresh : Nat → Nat) (l : List AssessmentItem)
    (g : AssessmentItem → β) (hg : ∀ x n, g { x with id := n } = g x) :
    (assignIds fresh l).map g = l.map g := by
  unfold assignIds
  rw [List.map_map]
  have h1 : (g ∘ fun p : Nat × AssessmentItem => { p.2 with id := fresh p.1 }) =
      (fun p : Nat × AssessmentItem => g p.2) := funext fun p => hg p.2 (fresh p.1)
  rw [h1]
  have h2 : (fun p : Nat × AssessmentItem => g p.2) =
      g ∘ (Prod.snd : Nat × AssessmentItem → AssessmentItem) := rfl
  rw [h2, ← List.map_map, List.enum_map_snd]

lemma assignIds_length (fresh : Nat → Nat) (l : List AssessmentItem) :
    (assignIds fresh l).length = l.length := by
  unfold assignIds
  rw [List.length_map, List.enum_length]

lemma mem_assignIds_field {β : Type} {fresh : Nat → Nat} {l : List AssessmentItem}
    (g : AssessmentItem → β) (hg : ∀ x n, g { x with id := n } = g x)
    {it : AssessmentItem} (hit : it ∈ assignIds fresh l) : ∃ x ∈ l, g x = g it := by
  have hm : g it ∈ (assignIds fresh l).map g := List.mem_map_of_mem g hit
  rw [assignIds_map_field fresh l g hg] at hm
  exact List.mem_map.mp hm

lemma traitStep_forall {a : Assessment} {db : DB} {traits : TraitsJson}
    (P : AssessmentItem → Prop)
    (hmk : ∀ gid oi tm cfg, P
      { id := 0, assessment_id := a.id, game_id := gid, order_index := oi,
        timer_seconds := some tm, status := .PENDING, config_snapshot := cfg })
    {acc : List AssessmentItem} {e : String × String × Nat × ConfigSnapshot}
    (hacc : ∀ x ∈ acc, P x) : ∀ it ∈ traitStep a db traits acc e, P it := by
  intro it hit
  unfold traitStep at hit
  rcases e with ⟨t, gc, tm, cfg⟩
  dsimp only at hit
  split at hit
  · cases hg : findGameByCode db gc <;> rw [hg] at hit
    · exact hacc it hit
    · rcases List.mem_append.mp hit with h | h
      · exact hacc it h
      · rw [List.mem_singleton] at h
        subst h
        exact hmk _ _ _ _
  · exact hacc it hit

lemma traitItems_forall {a : Assessment} {db : DB} {traits : TraitsJson}
    (P : AssessmentItem → Prop)
    (hmk : ∀ gid oi tm cfg, P
      { id := 0, assessment_id := a.id, game_id := gid, order_index := oi,
        timer_seconds := some tm, status := .PENDING, config_snapshot := cfg }) :
    ∀ it ∈ traitItems a db traits, P it := by
  intro it hit
  unfold traitItems traitGameTable at hit
  simp only [List.foldl] at hit
  exact traitStep_forall P hmk
    (traitStep_forall P hmk
      (traitStep_forall P hmk (fun x hx => absurd hx (List.not_mem_nil x))))
    it hit

lemma defaultItems_forall {a : Assessment} {db : DB} (P : AssessmentItem → Prop)
    (hmk : ∀ gid oi, P
      { id := 0, assessment_id := a.id, game_id := gid, order_index := oi,
        timer_seconds := some 300, status := .PENDING, config_snapshot := [] }) :
    ∀ it ∈ defaultItems a db, P it := by
  intro it hit
  unfold defaultItems at hit
  rw [List.mem_filterMap] at hit
  obtain ⟨p, _, heq⟩ := hit
  cases hg : findGameByCode db p.2 <;> rw [hg] at heq
  · simp at heq
  · rw [Option.map_some'] at heq
    cases heq
    exact hmk _ _

lemma create_items_assessment_id (a : Assessment) (db : DB) (fresh : Nat → Nat) :
    ∀ it ∈ _create_assessment_items a db fresh, it.assessment_id = a.id := by
  intro it hit
  unfold _create_assessment_items at hit
  have key : ∀ l : List AssessmentItem, (∀ x ∈ l, x.assessment_id = a.id) →
      it ∈ assignIds fresh l → it.assessment_id = a.id := by
    intro l hl hmem
    obtain ⟨x, hx, he⟩ := mem_assignIds_field (fun y => y.assessment_id) (fun x n => rfl) hmem
    rw [← he]
    exact hl x hx
  split at hit
  · exact key _ (defaultItems_forall _ (fun gid oi => rfl)) hit
  · split at hit
    · exact key _ (defaultItems_forall _ (fun gid oi => rfl)) hit
    · split at hit
      · exact key _ (defaultItems_forall _ (fun gid oi => rfl)) hit
      · exact key _ (traitItems_forall _ (fun gid oi tm cfg => rfl)) hit

/-! Shape lemmas for the endpoints: each one either leaves the database
unchanged or performs its characteristic write. -/

lemma agg_empty {a : Assessment} {db : DB} (h : aggItems a db = []) :
    _check_assessment_completion a db = db := by
  unfold _check_assessment_completion
  rw [h]
  rfl

lemma agg_spec {a : Assessment} {db : DB} (hne : aggItems a db ≠ []) :
    _check_assessment_completion a db =
      if (aggItems a db).all (fun it => it.status == .SUBMITTED)
      then { db with assessments := db.assessments.map (aggUpd a db) }
      else db := by
  unfold _check_assessment_completion
  rw [if_neg (by simpa [List.isEmpty_iff] using hne)]
  by_cases hall : (aggItems a db).all (fun it => it.status == .SUBMITTED)
  · rw [if_pos, if_pos hall]
    rw [List.countP_eq_length]
    intro x hx
    exact List.all_eq_true.mp hall x hx
  · rw [if_neg, if_neg hall]
    rw [List.countP_eq_length]
    intro hc
    exact hall (List.all_eq_true.mpr hc)

lemma agg_items_eq (a : Assessment) (db : DB) :
    (_check_assessment_completion a db).items = db.items := by
  unfold _check_assessment_completion
  dsimp only
  split
  · rfl
  · split <;> rfl

lemma agg_shape (a : Assessment) (db : DB) :
    _check_assessment_completion a db = db ∨
    (aggItems a db ≠ [] ∧ (∀ it ∈ aggItems a db, it.status = .SUBMITTED) ∧
     _check_assessment_completion a db =
       { db with assessments := db.assessments.map (aggUpd a db) }) := by
  by_cases hne : aggItems a db = []
  · exact Or.inl (agg_empty hne)
  · rw [agg_spec hne]
    by_cases hall : (aggItems a db).all (fun it => it.status == .SUBMITTED)
    · refine Or.inr ⟨hne, ?_, by rw [if_pos hall]⟩
      intro it hit
      simpa using List.all_eq_true.mp hall it hit
    · exact Or.inl (by rw [if_neg hall])

lemma create_shape (newId cid rid : Nat) (p : User) (db : DB) :
    (create_assessment newId cid rid p db).2 = db ∨
    (create_assessment newId cid rid p db).2 =
      { db with assessments := db.assessments ++ [newAssessment newId cid rid] } := by
  unfold create_assessment
  split
  · exact Or.inl rfl
  split
  · exact Or.inl rfl
  split
  · exact Or.inl rfl
  exact Or.inr rfl

lemma delete_shape (aid : Nat) (p : User) (db : DB) :
    (delete_assessment aid p db).2 = db ∨
    (∃ a, findAssessment db aid = some a ∧ a.status = .NOT_STARTED ∧
      (delete_assessment aid p db).2 =
        { db with assessments := db.assessments.filter (fun x => !(x.id == aid)) }) := by
  unfold delete_assessment
  split
  · exact Or.inl rfl
  split
  · exact Or.inl rfl
  rename_i a ha
  split
  · exact Or.inl rfl
  rename_i hs
  exact Or.inr ⟨a, ha, by simpa using hs, rfl⟩

lemma startA_shape (aid : Nat) (fresh : Nat → Nat) (p : User) (db : DB) :
    (start_assessment aid fresh p db).2 = db ∨
    (∃ a, findAssessment db aid = some a ∧ a.status = .NOT_STARTED ∧
      (start_assessment aid fresh p db).2 =
        { db with assessments := db.assessments.map (startAUpd aid db.now),
                  items := db.items ++ _create_assessment_items a db fresh }) := by
  unfold start_assessment
  split
  · exact Or.inl rfl
  rename_i a ha
  split
  · exact Or.inl rfl
  split
  · exact Or.inl rfl
  rename_i hs
  exact Or.inr ⟨a, ha, by simpa using hs, rfl⟩

lemma startItem_shape (iid : Nat) (p : User) (db : DB) :
    (start_assessment_item iid p db).2 = db ∨
    (start_assessment_item iid p db).2 =
      { db with items := db.items.map (startItemUpd iid db.now) } := by
  unfold start_assessment_item
  split
  · exact Or.inl rfl
  split
  · exact Or.inl rfl
  split
  · exact Or.inl rfl
  exact Or.inr rfl

lemma submit_shape (iid : Nat) (sub : SubmitItemRequest) (p : User) (db : DB) :
    (submit_assessment_item iid sub p db).2 = db ∨
    (submit_assessment_item iid sub p db).2 =
      { db with items := db.items.map (submitUpd iid sub) } ∨
    (∃ item a, findItem db iid = some item ∧
      findAssessment db item.assessment_id = some a ∧
      (submit_assessment_item iid sub p db).2 =
        _check_assessment_completion a
          { db with items := db.items.map (submitUpd iid sub) }) := by
  unfold submit_assessment_item
  split
  · exact Or.inl rfl
  rename_i item hit
  dsimp only
  split
  · exact Or.inl rfl
  split
  · split
    · exact Or.inr (Or.inl rfl)
    rename_i a ha
    exact Or.inr (Or.inr ⟨item, a, hit, ha, rfl⟩)
  · exact Or.inl rfl

lemma submit_ok {iid : Nat} {sub : SubmitItemRequest} {p : User} {db : DB}
    {msg : String} {db2 : DB}
    (h : submit_assessment_item iid sub p db = (.ok msg, db2)) :
    ∃ item a, findItem db iid = some item ∧
      (item.status = .ACTIVE ∨ item.status = .PENDING) ∧
      findAssessment db item.assessment_id = some a ∧
      db2 = _check_assessment_completion a
        { db with items := db.items.map (submitUpd iid sub) } := by
  unfold submit_assessment_item at h
  split at h
  · exact absurd (congrArg Prod.fst h) (by simp)
  rename_i item hit
  dsimp only at h
  split at h
  · exact absurd (congrArg Prod.fst h) (by simp)
  split at h
  · rename_i hs
    split at h
    · exact absurd (congrArg Prod.fst h) (by simp)
    rename_i a ha
    exact ⟨item, a, hit, hs, ha, (congrArg Prod.snd h).symm⟩
  · exact absurd (congrArg Prod.fst h) (by simp)

lemma score_shape (iid : Nat) (raw : RawMetrics) (p : User) (db : DB) :
    (score_game_performance iid raw p db).2 = db ∨
    ∃ resp, (score_game_performance iid raw p db).2 =
      { db with items := db.items.map (scoreUpd iid raw resp) } := by
  unfold score_game_performance
  split
  · exact Or.inl rfl
  split
  · exact Or.inl rfl
  split
  · exact Or.inl rfl
  split
  · exact Or.inl rfl
  split
  · exact Or.inl rfl
  rename_i resp hresp
  exact Or.inr ⟨resp, rfl⟩

lemma telemetry_shape (event : TelemetryEvent) (logId : Nat) (p : User) (db : DB) :
    (record_telemetry_event event logId p db).2 = db ∨
    (record_telemetry_event event logId p db).2 =
      { db with auditLog := db.auditLog ++ [telemetryLogEntry event logId db] } ∨
    ∃ fl aid0, (record_telemetry_event event logId p db).2 =
      { db with auditLog := db.auditLog ++ [telemetryLogEntry event logId db],
                assessments := db.assessments.map (flagUpd aid0 fl db.now) } := by
  unfold record_telemetry_event
  split
  · exact Or.inl rfl
  rename_i a ha
  split
  · exact Or.inl rfl
  dsimp only
  split
  · exact Or.inl rfl
  split
  · exact Or.inr (Or.inl rfl)
  rename_i fl hfl
  exact Or.inr (Or.inr ⟨fl, a.id, rfl⟩)

lemma manualFlag_shape (aid : Nat) (fl : IntegrityFlagRec) (p : User) (db : DB) :
    (flag_integrity_violation aid fl p db).2 = db ∨
    (flag_integrity_violation aid fl p db).2 =
      { db with assessments := db.assessments.map (flagUpd aid fl db.now) } := by
  unfold flag_integrity_violation
  split
  · exact Or.inl rfl
  split
  · exact Or.inl rfl
  exact Or.inr rfl

/-! Density lemmas for the Item Scheduler. -/

lemma traitStep_dense {a : Assessment} {db : DB} {traits : TraitsJson}
    {acc : List AssessmentItem} {e : String × String × Nat × ConfigSnapshot}
    (h : acc.map (fun it => it.order_index) = List.range acc.length) :
    (traitStep a db traits acc e).map (fun it => it.order_index) =
      List.range (traitStep a db traits acc e).length := by
  unfold traitStep
  rcases e with ⟨t, gc, tm, cfg⟩
  dsimp only
  split
  · cases findGameByCode db gc
    · exact h
    · dsimp only
      rw [List.map_append, h]
      simp [List.range_succ]
  · exact h

lemma traitItems_dense (a : Assessment) (db : DB) (traits : TraitsJson) :
    (traitItems a db traits).map (fun it => it.order_index) =
      List.range (traitItems a db traits).length := by
  unfold traitItems traitGameTable
  simp only [List.foldl]
  exact traitStep_dense (traitStep_dense (traitStep_dense rfl))

lemma defaultItems_map_order (a : Assessment) (db : DB) :
    (defaultItems a db).map (fun it => it.order_index) =
      defaultGameCodes.enum.filterMap
        (fun p => if (findGameByCode db p.2).isSome then some p.1 else none) := by
  unfold defaultItems
  rw [List.map_filterMap]
  have hfn : (fun p : Nat × String =>
      ((findGameByCode db p.2).map fun g =>
        ({ id := 0, assessment_id := a.id, game_id := g.id, order_index := p.1,
           timer_seconds := some 300, status := .PENDING,
           config_snapshot := [] } : AssessmentItem)).map (fun it => it.order_index)) =
      (fun p : Nat × String =>
        if (findGameByCode db p.2).isSome then some p.1 else none) := by
    funext p
    cases h : findGameByCode db p.2 <;> simp [h]
  rw [hfn]

/-! Claim theorems. -/

/-- C5 (confirmed): the N-back scorer computes accuracy, raw score,
normalized score, memory trait contribution and the Excellent bucket
exactly as the claim's formulas state (whenever the record has responses
and its total_trials value is nonzero, so the scorer returns); and on the
scenario record {16,2,1,1,20} the normalized score is 1641/19 which is
within 0.1 of 86.4, with performance level Excellent. -/
theorem claim_C5_nback_scoring :
    (∀ m r, m.total_trials.getD 1 ≠ 0 →
      0 < m.correct_responses.getD 0 + m.incorrect_responses.getD 0 +
          m.false_positives.getD 0 →
      score_nback_game m = .ok r →
        (r.score =
            (m.correct_responses.getD 0 /
              (m.correct_responses.getD 0 + m.incorrect_responses.getD 0 +
               m.false_positives.getD 0)) * 0.8
            + (1 - m.misses.getD 0 / m.total_trials.getD 1) * 0.2 ∧
         r.normalized_score = min 100 (max 0 (r.score * 100)) ∧
         r.trait_scores = [("memory", r.normalized_score)] ∧
         (85 ≤ r.normalized_score → r.performance_level = "Excellent"))) ∧
    (score_nback_game mC5 = .ok rC5 ∧ rC5.normalized_score = 1641 / 19 ∧
     |rC5.normalized_score - 86.4| < 0.1 ∧ rC5.performance_level = "Excellent") := by
  constructor
  · intro m r h1 h2 hr
    unfold score_nback_game at hr
    dsimp only at hr
    rw [if_neg h1, if_pos h2] at hr
    injection hr with hr
    subst hr
    refine ⟨rfl, rfl, rfl, ?_⟩
    intro hge
    unfold performanceLevel
    rw [if_pos hge]
  · refine ⟨?_, ?_, ?_, rfl⟩
    · norm_num [score_nback_game, mC5, rC5, performanceLevel]
    · norm_num [rC5]
    · rw [abs_lt]
      constructor <;> norm_num [rC5]

/-- Witness for C5's universal part, instantiated at the scenario record. -/
theorem claim_C5_witness :
    mC5.total_trials.getD 1 ≠ 0 ∧
    0 < mC5.correct_responses.getD 0 + mC5.incorrect_responses.getD 0 +
        mC5.false_positives.getD 0 ∧
    (rC5.score =
        (mC5.correct_responses.getD 0 /
          (mC5.correct_responses.getD 0 + mC5.incorrect_responses.getD 0 +
           mC5.false_positives.getD 0)) * 0.8
        + (1 - mC5.misses.getD 0 / mC5.total_trials.getD 1) * 0.2 ∧
     rC5.normalized_score = min 100 (max 0 (rC5.score * 100)) ∧
     rC5.trait_scores = [("memory", rC5.normalized_score)] ∧
     (85 ≤ rC5.normalized_score → rC5.performance_level = "Excellent")) :=
  ⟨by norm_num [mC5], by norm_num [mC5],
   claim_C5_nback_scoring.1 mC5 rC5 (by norm_num [mC5]) (by norm_num [mC5])
     (by norm_num [score_nback_game, mC5, rC5, performanceLevel])⟩

/-- C6 counterexample: on a record with zero accuracy and a 300 ms average
response, the source's Stroop scorer yields a normalized score of 45 (its
speed bonus is 1.5, unclamped above), while the claim's clamped formula
yields 30; so the claim's formula is not the one the code computes. -/
theorem claim_C6_counterexample :
    (score_stroop_game m6).normalized_score = 45 ∧
    stroop_normalized_spec m6 = 30 ∧
    (score_stroop_game m6).normalized_score ≠ stroop_normalized_spec m6 := by
  refine ⟨?_, ?_, ?_⟩ <;> norm_num [score_stroop_game, stroop_normalized_spec, m6]

/-- C6 (amended): the Stroop speed bonus is clamped only from below —
`max 0 (1 − (avg−800)/1000)`, exceeding 1 for fast runs — the raw score is
accuracy×0.7 + speed_bonus×0.3, the normalized score is raw×100 clamped to
[0,100], the trait contributions are 0.8/0.2 of the normalized score, and
the normalized score still never exceeds 100 (the accuracy-1, speed-1
value). -/
theorem claim_C6_stroop_formulas :
    ∀ m, 0 < m.correct_responses.getD 0 + m.incorrect_responses.getD 0 →
      ((score_stroop_game m).score =
         (m.correct_responses.getD 0 /
           (m.correct_responses.getD 0 + m.incorrect_responses.getD 0)) * 0.7
         + (max 0 (1 - (m.average_response_time.getD 1000 - 800) / 1000)) * 0.3 ∧
       (score_stroop_game m).normalized_score =
         min 100 (max 0 ((score_stroop_game m).score * 100)) ∧
       (score_stroop_game m).trait_scores =
         [("attention", (score_stroop_game m).normalized_score * 0.8),
          ("cognitive_flexibility", (score_stroop_game m).normalized_score * 0.2)] ∧
       (score_stroop_game m).normalized_score ≤ 100) := by
  intro m h2
  unfold score_stroop_game
  dsimp only
  rw [if_pos h2]
  exact ⟨rfl, rfl, rfl, min_le_left _ _⟩

/-- Witness for C6's amended theorem at the counterexample record. -/
theorem claim_C6_witness :
    0 < m6.correct_responses.getD 0 + m6.incorrect_responses.getD 0 ∧
    ((score_stroop_game m6).score =
       (m6.correct_responses.getD 0 /
         (m6.correct_responses.getD 0 + m6.incorrect_responses.getD 0)) * 0.7
       + (max 0 (1 - (m6.average_response_time.getD 1000 - 800) / 1000)) * 0.3 ∧
     (score_stroop_game m6).normalized_score =
       min 100 (max 0 ((score_stroop_game m6).score * 100)) ∧
     (score_stroop_game m6).trait_scores =
       [("attention", (score_stroop_game m6).normalized_score * 0.8),
        ("cognitive_flexibility", (score_stroop_game m6).normalized_score * 0.2)] ∧
     (score_stroop_game m6).normalized_score ≤ 100) :=
  ⟨by norm_num [m6], claim_C6_stroop_formulas m6 (by norm_num [m6])⟩

/-- C9 counterexample: a record whose response counts are all zero but
which carries `total_trials = 0` makes the N-back scorer raise
ZeroDivisionError (the `misses / total_trials` division is unguarded)
instead of returning normally. -/
theorem claim_C9_counterexample :
    m9.correct_responses.getD 0 = 0 ∧ m9.incorrect_responses.getD 0 = 0 ∧
    m9.false_positives.getD 0 = 0 ∧
    score_nback_game m9 = .error .zeroDivision := by
  refine ⟨?_, ?_, ?_, ?_⟩ <;> norm_num [score_nback_game, m9]

/-- C9 (amended): with no responses every scorer's accuracy guard yields 0
instead of dividing — the N-back scorer returns normally with its raw score
reduced to the miss term, the Stroop scorer to the speed-bonus term, and
the reaction-time scorer to 0 — provided (for N-back only) the separate
total_trials value (defaulting to 1) is nonzero, since that division is
unguarded. -/
theorem claim_C9_zero_denominators :
    (∀ m, m.correct_responses.getD 0 = 0 → m.incorrect_responses.getD 0 = 0 →
      m.false_positives.getD 0 = 0 → m.total_trials.getD 1 ≠ 0 →
      ∃ r, score_nback_game m = .ok r ∧
        r.score = (1 - m.misses.getD 0 / m.total_trials.getD 1) * 0.2) ∧
    (∀ m, m.correct_responses.getD 0 = 0 → m.incorrect_responses.getD 0 = 0 →
      (score_stroop_game m).score =
        (max 0 (1 - (m.average_response_time.getD 1000 - 800) / 1000)) * 0.3) ∧
    (∀ m, m.correct_responses.getD 0 = 0 → m.incorrect_responses.getD 0 = 0 →
      (score_reaction_time_game m).score = 0 ∧
      (score_reaction_time_game m).normalized_score = 0) := by
  refine ⟨?_, ?_, ?_⟩
  · intro m hc hi hf ht
    unfold score_nback_game
    dsimp only
    rw [if_neg ht]
    refine ⟨_, rfl, ?_⟩
    dsimp only
    rw [hc, hi, hf]
    norm_num
  · intro m hc hi
    unfold score_stroop_game
    dsimp only
    rw [hc, hi]
    norm_num
  · intro m hc hi
    unfold score_reaction_time_game
    dsimp only
    rw [hc, hi]
    norm_num

/-- Witness for C9's amended theorem at a concrete zero-response record. -/
theorem claim_C9_witness :
    (m9b.correct_responses.getD 0 = 0 ∧ m9b.incorrect_responses.getD 0 = 0 ∧
     m9b.false_positives.getD 0 = 0 ∧ m9b.total_trials.getD 1 ≠ 0) ∧
    (∃ r, score_nback_game m9b = .ok r ∧
      r.score = (1 - m9b.misses.getD 0 / m9b.total_trials.getD 1) * 0.2) ∧
    (score_stroop_game m9b).score =
      (max 0 (1 - (m9b.average_response_time.getD 1000 - 800) / 1000)) * 0.3 ∧
    (score_reaction_time_game m9b).score = 0 :=
  ⟨⟨by norm_num [m9b], by norm_num [m9b], by norm_num [m9b], by norm_num [m9b]⟩,
   claim_C9_zero_denominators.1 m9b (by norm_num [m9b]) (by norm_num [m9b])
     (by norm_num [m9b]) (by norm_num [m9b]),
   claim_C9_zero_denominators.2.1 m9b (by norm_num [m9b]) (by norm_num [m9b]),
   (claim_C9_zero_denominators.2.2 m9b (by norm_num [m9b]) (by norm_num [m9b])).1⟩

/-- C4 counterexample: a job role whose trait profile is present and
nonempty but marks no trait required ("yields no matching items") produces
zero items — the scheduler does not fall back to the default triple, even
with all three default games in the catalog. -/
theorem claim_C4_counterexample :
    (findGameByCode db4 "NBACK").isSome ∧ (findGameByCode db4 "STROOP").isSome ∧
    (findGameByCode db4 "REACTION_TIME").isSome ∧
    findJobRole db4 a4.job_role_id = some jrNoneRequired ∧
    traitRequired [("memory", { required := false })] "memory" = false ∧
    traitRequired [("memory", { required := false })] "attention" = false ∧
    traitRequired [("memory", { required := false })] "processing_speed" = false ∧
    _create_assessment_items a4 db4 (fun k => k) = [] := by
  refine ⟨by decide, by decide, by decide, by decide, by decide, by decide, by decide,
    by decide⟩

/-- C4 (amended): the scheduler falls back to the default triple exactly
when the job role is missing or its traits_json is absent or the empty
dict; in that case, with all three default game codes in the catalog, it
creates exactly the N-back, Stroop, reaction-time items with order_index
0,1,2, 300-second timers, PENDING status and empty config snapshots.  (A
present-but-matchless trait profile instead yields zero items, and default
codes missing from the catalog are skipped.) -/
theorem claim_C4_default_fallback :
    ∀ (db : DB) (a : Assessment) (fresh : Nat → Nat) (g1 g2 g3 : Game),
      (∀ jr, findJobRole db a.job_role_id = some jr →
        (jr.traits_json = none ∨ jr.traits_json = some [])) →
      findGameByCode db "NBACK" = some g1 →
      findGameByCode db "STROOP" = some g2 →
      findGameByCode db "REACTION_TIME" = some g3 →
      _create_assessment_items a db fresh =
        [{ id := fresh 0, assessment_id := a.id, game_id := g1.id, order_index := 0,
           timer_seconds := some 300, status := .PENDING, config_snapshot := [] },
         { id := fresh 1, assessment_id := a.id, game_id := g2.id, order_index := 1,
           timer_seconds := some 300, status := .PENDING, config_snapshot := [] },
         { id := fresh 2, assessment_id := a.id, game_id := g3.id, order_index := 2,
           timer_seconds := some 300, status := .PENDING, config_snapshot := [] }] := by
  intro db a fresh g1 g2 g3 hjr h1 h2 h3
  have hdef : assignIds fresh (defaultItems a db) =
      [{ id := fresh 0, assessment_id := a.id, game_id := g1.id, order_index := 0,
         timer_seconds := some 300, status := .PENDING, config_snapshot := [] },
       { id := fresh 1, assessment_id := a.id, game_id := g2.id, order_index := 1,
         timer_seconds := some 300, status := .PENDING, config_snapshot := [] },
       { id := fresh 2, assessment_id := a.id, game_id := g3.id, order_index := 2,
         timer_seconds := some 300, status := .PENDING, config_snapshot := [] }] := by
    unfold defaultItems defaultGameCodes assignIds
    simp [List.enum, List.enumFrom, h1, h2, h3]
  unfold _create_assessment_items
  cases hfind : findJobRole db a.job_role_id
  · exact hdef
  case some jr =>
    dsimp only
    rcases hjr jr hfind with htj | htj <;> rw [htj]
    · exact hdef
    · exact hdef

/-- Witness for C4's amended theorem on a concrete catalog and job role
(role 99 resolves to no job role, so the fallback condition holds). -/
theorem claim_C4_witness :
    (∀ jr, findJobRole db8 a4.job_role_id = some jr →
      (jr.traits_json = none ∨ jr.traits_json = some [])) ∧
    (∀ jr, findJobRole db4x a4x.job_role_id = some jr →
      (jr.traits_json = none ∨ jr.traits_json = some [])) ∧
    _create_assessment_items a4x db4x (fun k => 50 + k) =
      [{ id := 50, assessment_id := a4x.id, game_id := gNback.id, order_index := 0,
         timer_seconds := some 300, status := .PENDING, config_snapshot := [] },
       { id := 51, assessment_id := a4x.id, game_id := gStroop.id, order_index := 1,
         timer_seconds := some 300, status := .PENDING, config_snapshot := [] },
       { id := 52, assessment_id := a4x.id, game_id := gReaction.id, order_index := 2,
         timer_seconds := some 300, status := .PENDING, config_snapshot := [] }] :=
  ⟨by decide, by decide,
   claim_C4_default_fallback db4x a4x (fun k => 50 + k) gNback gStroop gReaction
     (by decide) (by decide) (by decide) (by decide)⟩

/-- C8 counterexample: in the default fallback branch with STROOP absent
from the catalog, the scheduler assigns order_index values 0 and 2 to the
two created items — a gap, not the dense set {0, 1}. -/
theorem claim_C8_counterexample :
    ((_create_assessment_items a8 db8 (fun k => k)).map (fun it => it.order_index))
      = [0, 2] ∧
    ¬ ((_create_assessment_items a8 db8 (fun k => k)).map
        (fun it => it.order_index)).Perm
      (List.range (_create_assessment_items a8 db8 (fun k => k)).length) := by
  refine ⟨by decide, by decide⟩

/-- C8 (amended): order_index values are dense in the trait-profile branch
for every profile and catalog; in the default fallback branch they are the
enumerate positions of the catalog-present default codes, which form the
dense set {0,…,n−1} only when the present codes are a prefix of the default
list. -/
theorem claim_C8_order_indexes :
    (∀ (db : DB) (a : Assessment) (fresh : Nat → Nat) (jr : JobRole) (ts : TraitsJson),
      findJobRole db a.job_role_id = some jr → jr.traits_json = some ts → ts ≠ [] →
      (_create_assessment_items a db fresh).map (fun it => it.order_index) =
        List.range (_create_assessment_items a db fresh).length) ∧
    (∀ (db : DB) (a : Assessment) (fresh : Nat → Nat),
      (∀ jr, findJobRole db a.job_role_id = some jr →
        (jr.traits_json = none ∨ jr.traits_json = some [])) →
      (_create_assessment_items a db fresh).map (fun it => it.order_index) =
        defaultGameCodes.enum.filterMap
          (fun p => if (findGameByCode db p.2).isSome then some p.1 else none)) := by
  constructor
  · intro db a fresh jr ts hfind htj hne
    unfold _create_assessment_items
    rw [hfind]
    dsimp only
    rw [htj]
    dsimp only
    rw [if_neg (by simpa [List.isEmpty_iff] using hne)]
    rw [assignIds_map_field fresh _ (fun it => it.order_index) (fun x n => rfl),
        assignIds_length]
    exact traitItems_dense a db ts
  · intro db a fresh hjr
    have hgoal : (assignIds fresh (defaultItems a db)).map (fun it => it.order_index) =
        defaultGameCodes.enum.filterMap
          (fun p => if (findGameByCode db p.2).isSome then some p.1 else none) := by
      rw [assignIds_map_field fresh _ (fun it => it.order_index) (fun x n => rfl)]
      exact defaultItems_map_order a db
    unfold _create_assessment_items
    cases hfind : findJobRole db a.job_role_id
    · exact hgoal
    case some jr =>
      dsimp only
      rcases hjr jr hfind with htj | htj <;> rw [htj]
      · exact hgoal
      · exact hgoal

/-- Witness for C8's amended theorem: the trait branch on a one-required
profile gives the dense [0], and the fallback branch on the STROOP-less
catalog gives positions [0, 2]. -/
theorem claim_C8_witness :
    (findJobRole dbMem aMem.job_role_id = some jrMemOnly ∧
     jrMemOnly.traits_json = some [("memory", { required := true })] ∧
     ([("memory", { required := true })] : TraitsJson) ≠ [] ∧
     (_create_assessment_items aMem dbMem (fun k => k)).map (fun it => it.order_index) =
       List.range (_create_assessment_items aMem dbMem (fun k => k)).length) ∧
    ((∀ jr, findJobRole db8 a8.job_role_id = some jr →
        (jr.traits_json = none ∨ jr.traits_json = some [])) ∧
     (_create_assessment_items a8 db8 (fun k => k)).map (fun it => it.order_index) =
       defaultGameCodes.enum.filterMap
         (fun p => if (findGameByCode db8 p.2).isSome then some p.1 else none)) :=
  ⟨⟨by decide, by decide, by decide,
    claim_C8_order_indexes.1 dbMem aMem (fun k => k) jrMemOnly
      [("memory", { required := true })] (by decide) (by decide) (by decide)⟩,
   ⟨by decide, claim_C8_order_indexes.2 db8 a8 (fun k => k) (by decide)⟩⟩

/-- C2 (code bug): telemetry.py imports only `datetime`, yet its
threshold check evaluates `timedelta(minutes=30)`, so the sixth WINDOW_BLUR
ingestion raises NameError — the request fails, the raw event is not
recorded, and no flag is appended (the claim describes the unreachable
count-and-flag lines); reading those lines with the import fixed
(`_check_integrity_violation_intended`) yields exactly the claimed MEDIUM
flag with event_count 6 against threshold 5. -/
theorem claim_C2_ingestion_name_error :
    record_telemetry_event ev6 99 uAdmin dbT =
      (.error (.py (.nameError "timedelta")), dbT) ∧
    _check_integrity_violation_intended ev6 dbT (telemetryLogEntry ev6 99 dbT) =
      some { flag_type := "WINDOW_BLUR", severity := "MEDIUM",
             description := "Excessive window blur events detected (6 in last 30 minutes)",
             timestamp := 200, evidence_event_count := 6, evidence_threshold := 5,
             evidence_time_window := "30 minutes", evidence_last_event := 199 } := by
  refine ⟨rfl, by decide⟩

/-- C3 counterexample: the admin update endpoint accepts any status value
with no transition check — it moves a COMPLETED assessment back to
NOT_STARTED, so the observed status sequence COMPLETED, NOT_STARTED is not
a subsequence of the claimed forward chain. -/
theorem claim_C3_counterexample :
    a3.status = .COMPLETED ∧
    (update_assessment 1 { status := some "NOT_STARTED" } uAdmin db3).1 = .ok () ∧
    findAssessment (update_assessment 1 { status := some "NOT_STARTED" } uAdmin db3).2 1 =
      some { a3 with status := .NOT_STARTED } := by
  refine ⟨rfl, rfl, by decide⟩

/-- C1 counterexample: submitting an ACTIVE item whose game code (TETRIS)
has no registered scoring function succeeds — no UnsupportedGame failure —
and stores the client metrics verbatim, with no server_scoring sub-record;
the item is simply marked SUBMITTED with the client-supplied score. -/
theorem claim_C1_counterexample :
    GAME_SCORING_FUNCTIONS gTetris.code = none ∧
    findGameById db1c item1.game_id = some gTetris ∧
    item1.status = .ACTIVE ∧
    (submit_assessment_item 10 sub1 uCand db1c).1 =
      .ok "Assessment item submitted successfully" ∧
    findItem (submit_assessment_item 10 sub1 uCand db1c).2 10 =
      some { item1 with
        status := .SUBMITTED, score := some 55,
        metrics_json := some sub1.metrics_json } ∧
    sub1.metrics_json.server_scoring = none := by
  refine ⟨rfl, by decide, rfl, rfl, by decide, rfl⟩

/-! Field-preservation facts for the per-row updaters, and congruence
helpers for the query functions. -/

lemma submitUpd_id (iid : Nat) (sub : SubmitItemRequest) :
    ∀ it, (submitUpd iid sub it).id = it.id := by
  intro it; unfold submitUpd; split <;> rfl

lemma submitUpd_aid (iid : Nat) (sub : SubmitItemRequest) :
    ∀ it, (submitUpd iid sub it).assessment_id = it.assessment_id := by
  intro it; unfold submitUpd; split <;> rfl

lemma startItemUpd_id (iid now : Nat) :
    ∀ it, (startItemUpd iid now it).id = it.id := by
  intro it; unfold startItemUpd; split <;> rfl

lemma startItemUpd_aid (iid now : Nat) :
    ∀ it, (startItemUpd iid now it).assessment_id = it.assessment_id := by
  intro it; unfold startItemUpd; split <;> rfl

lemma scoreUpd_id (iid : Nat) (raw : RawMetrics) (resp : GameScoreResponse) :
    ∀ it, (scoreUpd iid raw resp it).id = it.id := by
  intro it; unfold scoreUpd; split <;> rfl

lemma scoreUpd_aid (iid : Nat) (raw : RawMetrics) (resp : GameScoreResponse) :
    ∀ it, (scoreUpd iid raw resp it).assessment_id = it.assessment_id := by
  intro it; unfold scoreUpd; split <;> rfl

lemma startAUpd_id (aid now : Nat) : ∀ x, (startAUpd aid now x).id = x.id := by
  intro x; unfold startAUpd; split <;> rfl

lemma aggUpd_id (a : Assessment) (db : DB) : ∀ x, (aggUpd a db x).id = x.id := by
  intro x; unfold aggUpd; split <;> rfl

lemma flagUpd_id (aid : Nat) (fl : IntegrityFlagRec) (now : Nat) :
    ∀ x, (flagUpd aid fl now x).id = x.id := by
  intro x; unfold flagUpd; split <;> rfl

lemma flagUpd_status (aid : Nat) (fl : IntegrityFlagRec) (now : Nat) :
    ∀ x, (flagUpd aid fl now x).status = x.status := by
  intro x; unfold flagUpd; split <;> rfl

lemma findAssessment_congr {db db2 : DB} (h : db2.assessments = db.assessments)
    (aid : Nat) : findAssessment db2 aid = findAssessment db aid := by
  unfold findAssessment; rw [h]

lemma findItem_congr {db db2 : DB} (h : db2.items = db.items) (iid : Nat) :
    findItem db2 iid = findItem db iid := by
  unfold findItem; rw [h]

lemma find_eq_same {db : DB} {aid : Nat} {x y : Assessment}
    (hx : findAssessment db aid = some x) (hy : findAssessment db aid = some y) :
    x = y := by
  rw [hx] at hy; injection hy

/-! Transport of the lifecycle invariant along the possible writes. -/

lemma lifecycleInv_congr (db : DB) {db2 : DB} (h2 : db2.assessments = db.assessments)
    (h3 : db2.items = db.items) (h : LifecycleInv db) : LifecycleInv db2 := by
  intro a ha
  rw [h2] at ha
  refine ⟨(h a ha).1, ?_⟩
  intro hN it hit
  rw [h3] at hit
  exact (h a ha).2 hN it hit

lemma lifecycleInv_map_items (db : DB) {db2 : DB} {f : AssessmentItem → AssessmentItem}
    (h2 : db2.assessments = db.assessments) (h3 : db2.items = db.items.map f)
    (hf : ∀ it, (f it).assessment_id = it.assessment_id)
    (h : LifecycleInv db) : LifecycleInv db2 := by
  intro a ha
  rw [h2] at ha
  refine ⟨(h a ha).1, ?_⟩
  intro hN it hit
  rw [h3] at hit
  obtain ⟨it0, hit0, rfl⟩ := List.mem_map.mp hit
  rw [hf it0]
  exact (h a ha).2 hN it0 hit0

lemma lifecycleInv_map_status_preserving (db : DB) {db2 : DB} {f : Assessment → Assessment}
    (h2 : db2.assessments = db.assessments.map f) (h3 : db2.items = db.items)
    (hfs : ∀ x, (f x).status = x.status)
    (hfi : ∀ x, (f x).id = x.id)
    (h : LifecycleInv db) : LifecycleInv db2 := by
  intro a2 ha2
  rw [h2] at ha2
  obtain ⟨a, ha, rfl⟩ := List.mem_map.mp ha2
  constructor
  · rw [hfs]; exact (h a ha).1
  · intro hN it hit
    rw [h3] at hit
    rw [hfi]
    rw [hfs] at hN
    exact (h a ha).2 hN it hit

lemma pair_of_congr (db : DB) {db2 : DB} (h2 : db2.assessments = db.assessments) :
    ∀ (aid : Nat) (x y : Assessment), findAssessment db aid = some x →
      findAssessment db2 aid = some y → allowedTransition x.status y.status := by
  intro aid x y hx hy
  rw [findAssessment_congr h2, hx] at hy
  injection hy with hy
  subst hy
  exact Or.inl rfl

lemma pair_of_map_status_preserving (db : DB) {db2 : DB} {f : Assessment → Assessment}
    (h2 : db2.assessments = db.assessments.map f)
    (hfs : ∀ x, (f x).status = x.status)
    (hfi : ∀ x, (f x).id = x.id) :
    ∀ (aid : Nat) (x y : Assessment), findAssessment db aid = some x →
      findAssessment db2 aid = some y → allowedTransition x.status y.status := by
  intro aid x y hx hy
  rw [findAssessment_map aid hfi h2, hx] at hy
  injection hy with hy
  subst hy
  exact Or.inl (hfs x)

lemma aggItems_congr {a : Assessment} {db db2 : DB} (h : db2.items = db.items) :
    aggItems a db2 = aggItems a db := by
  unfold aggItems; rw [h]

lemma aggTotal_congr {a : Assessment} {db db2 : DB} (h : db2.items = db.items) :
    aggTotal a db2 = aggTotal a db := by
  unfold aggTotal; rw [aggItems_congr h]

/-- C1 (amended): the two halves of the claimed behavior live in two
different endpoints.  (1) The SubmitItem operation never consults the
scoring engine: any successful submission stores the client-supplied score
and metrics verbatim and sets status SUBMITTED.  (2) The separate score
endpoint dispatches on the item's game code and fails with the
UnsupportedGame error when no scoring function is registered.  (3) On a
registered code it returns the engine's response and stores the raw
metrics merged with the server_scoring sub-record — leaving the item's
status untouched. -/
theorem claim_C1_submit_vs_score_endpoint :
    (∀ (db : DB) (iid : Nat) (sub : SubmitItemRequest) (p : User) (msg : String)
       (db2 : DB) (item : AssessmentItem),
      submit_assessment_item iid sub p db = (.ok msg, db2) →
      findItem db iid = some item →
      findItem db2 iid = some { item with
        status := .SUBMITTED, score := some sub.score,
        metrics_json := some sub.metrics_json }) ∧
    (∀ (db : DB) (iid : Nat) (raw : RawMetrics) (p : User)
       (item : AssessmentItem) (game : Game),
      findItem db iid = some item →
      findGameById db item.game_id = some game →
      GAME_SCORING_FUNCTIONS game.code = none →
      checkCandidateAccess p (findAssessment db item.assessment_id) = .ok () →
      score_game_performance iid raw p db =
        (.error (.badRequest ("No scoring function available for game " ++ game.code)),
         db)) ∧
    (∀ (db : DB) (iid : Nat) (raw : RawMetrics) (p : User)
       (item : AssessmentItem) (game : Game)
       (f : RawMetrics → Except PyError GameScoreResponse)
       (resp r2 : GameScoreResponse) (db2 : DB),
      findItem db iid = some item →
      findGameById db item.game_id = some game →
      GAME_SCORING_FUNCTIONS game.code = some f →
      f raw = .ok resp →
      score_game_performance iid raw p db = (.ok r2, db2) →
      r2 = resp ∧
      findItem db2 iid = some { item with
        score := some resp.score,
        metrics_json := some
          { raw := raw,
            server_scoring := some
              { normalized_score := resp.normalized_score,
                trait_scores := resp.trait_scores,
                performance_level := resp.performance_level } } }) := by
  refine ⟨?_, ?_, ?_⟩
  · intro db iid sub p msg db2 item hok hit
    obtain ⟨item2, a, hit2, hst, ha, hdb2⟩ := submit_ok hok
    rw [hit] at hit2
    injection hit2 with he
    subst he
    subst hdb2
    rw [findItem_congr (agg_items_eq a _) iid]
    rw [findItem_map iid (submitUpd_id iid sub) rfl, hit, Option.map_some']
    have hid : item.id = iid := (findItem_some hit).2
    unfold submitUpd
    rw [if_pos (by simp [hid])]
  · intro db iid raw p item game hit hgame hnone hacc
    unfold score_game_performance
    rw [hit]
    dsimp only
    rw [hgame]
    dsimp only
    rw [hacc]
    dsimp only
    rw [hnone]
  · intro db iid raw p item game f resp r2 db2 hit hgame hsome hfr hok
    unfold score_game_performance at hok
    rw [hit] at hok
    dsimp only at hok
    rw [hgame] at hok
    dsimp only at hok
    cases hacc : checkCandidateAccess p (findAssessment db item.assessment_id) <;>
      rw [hacc] at hok
    · exact absurd (congrArg Prod.fst hok) (by simp)
    dsimp only at hok
    rw [hsome] at hok
    dsimp only at hok
    rw [hfr] at hok
    dsimp only at hok
    have hr : resp = r2 := by
      have h1 := congrArg Prod.fst hok
      simpa using h1
    have hdb : db2 = { db with items := db.items.map (scoreUpd iid raw resp) } :=
      (congrArg Prod.snd hok).symm
    subst hdb
    refine ⟨hr.symm, ?_⟩
    rw [findItem_map iid (scoreUpd_id iid raw resp) rfl, hit, Option.map_some']
    have hid : item.id = iid := (findItem_some hit).2
    unfold scoreUpd
    rw [if_pos (by simp [hid])]

/-- C7 (confirmed): after every successful item submission the aggregator
loads the assessment's items (a nonempty list — it contains the submitted
item); exactly when all of them are SUBMITTED it writes status COMPLETED,
completed_at = now, and total_score = the mean of the non-null item scores
(`aggTotal`, which is 0 when every score is null); otherwise the assessment
row is left exactly as it was. -/
theorem claim_C7_completion_aggregation :
    ∀ (db : DB) (iid : Nat) (sub : SubmitItemRequest) (p : User) (msg : String)
      (db2 : DB) (item : AssessmentItem) (a : Assessment),
      submit_assessment_item iid sub p db = (.ok msg, db2) →
      findItem db iid = some item →
      findAssessment db item.assessment_id = some a →
      (aggItems a db2 ≠ [] ∧
       (if (aggItems a db2).all (fun it => it.status == IStatus.SUBMITTED) then
          findAssessment db2 item.assessment_id = some { a with
            status := .COMPLETED, completed_at := some db.now,
            total_score := some (aggTotal a db2) }
        else findAssessment db2 item.assessment_id = some a)) := by
  intro db iid sub p msg db2 item a hok hit ha
  obtain ⟨item2, a2, hit2, hst, ha2, hdb2⟩ := submit_ok hok
  rw [hit] at hit2
  injection hit2 with he
  subst he
  rw [ha] at ha2
  injection ha2 with he2
  subst he2
  subst hdb2
  have haid : a.id = item.assessment_id := (findAssessment_some ha).2
  have hic : (_check_assessment_completion a
      { db with items := db.items.map (submitUpd iid sub) }).items =
      ({ db with items := db.items.map (submitUpd iid sub) } : DB).items :=
    agg_items_eq a _
  rw [aggItems_congr hic, aggTotal_congr hic]
  have hmem0 : item ∈ db.items := (findItem_some hit).1
  have hmem : submitUpd iid sub item ∈
      ({ db with items := db.items.map (submitUpd iid sub) } : DB).items :=
    List.mem_map_of_mem _ hmem0
  have hfil : submitUpd iid sub item ∈
      aggItems a { db with items := db.items.map (submitUpd iid sub) } := by
    unfold aggItems
    exact List.mem_filter.mpr ⟨hmem, by simp [submitUpd_aid, haid]⟩
  have hne : aggItems a { db with items := db.items.map (submitUpd iid sub) } ≠ [] :=
    List.ne_nil_of_mem hfil
  have ha1 : findAssessment { db with items := db.items.map (submitUpd iid sub) }
      item.assessment_id = some a := by
    rw [findAssessment_congr rfl]
    exact ha
  refine ⟨hne, ?_⟩
  by_cases hall : (aggItems a { db with items := db.items.map (submitUpd iid sub) }).all
      (fun it => it.status == IStatus.SUBMITTED)
  · rw [if_pos hall, agg_spec hne, if_pos hall]
    rw [findAssessment_map item.assessment_id (aggUpd_id a _) rfl, ha1,
        Option.map_some']
    unfold aggUpd
    rw [if_pos (by simp)]
  · rw [if_neg hall, agg_spec hne, if_neg hall]
    exact ha1

/-- Witness for C1's amended theorem: each of its three parts applied at a
concrete state — the TETRIS submission, the TETRIS score attempt, and a
successful Stroop scoring. -/
theorem claim_C1_witness :
    (findItem (submit_assessment_item 10 sub1 uCand db1c).2 10 =
       some { item1 with
         status := .SUBMITTED, score := some sub1.score,
         metrics_json := some sub1.metrics_json }) ∧
    (score_game_performance 10 m6 uCand db1c =
       (.error (.badRequest ("No scoring function available for game " ++ gTetris.code)),
        db1c)) ∧
    (score_stroop_game m6 = score_stroop_game m6 ∧
     findItem (score_game_performance 20 m6 uAdmin dbS).2 20 =
       some { itemS with
         score := some (score_stroop_game m6).score,
         metrics_json := some
           { raw := m6,
             server_scoring := some
               { normalized_score := (score_stroop_game m6).normalized_score,
                 trait_scores := (score_stroop_game m6).trait_scores,
                 performance_level := (score_stroop_game m6).performance_level } } }) :=
  ⟨claim_C1_submit_vs_score_endpoint.1 db1c 10 sub1 uCand
      "Assessment item submitted successfully"
      ((submit_assessment_item 10 sub1 uCand db1c).2) item1 (Prod.ext rfl rfl) rfl,
   claim_C1_submit_vs_score_endpoint.2.1 db1c 10 m6 uCand item1 gTetris rfl rfl rfl rfl,
   claim_C1_submit_vs_score_endpoint.2.2 dbS 20 m6 uAdmin itemS gStroop
      (fun m => .ok (score_stroop_game m)) (score_stroop_game m6) (score_stroop_game m6)
      ((score_game_performance 20 m6 uAdmin dbS).2) rfl rfl rfl rfl (Prod.ext rfl rfl)⟩

/-- Witness for C7: submitting the last non-submitted item of assessment 1
completes it with the mean of the stored scores. -/
theorem claim_C7_witness :
    findItem db7 10 = some item7a ∧
    findAssessment db7 item7a.assessment_id = some a7 ∧
    (aggItems a7 (submit_assessment_item 10 sub7 uAdmin db7).2 ≠ [] ∧
     (if (aggItems a7 (submit_assessment_item 10 sub7 uAdmin db7).2).all
          (fun it => it.status == IStatus.SUBMITTED) then
        findAssessment (submit_assessment_item 10 sub7 uAdmin db7).2
            item7a.assessment_id =
          some { a7 with
            status := .COMPLETED, completed_at := some db7.now,
            total_score :=
              some (aggTotal a7 (submit_assessment_item 10 sub7 uAdmin db7).2) }
      else
        findAssessment (submit_assessment_item 10 sub7 uAdmin db7).2
            item7a.assessment_id = some a7)) :=
  ⟨rfl, rfl,
   claim_C7_completion_aggregation db7 10 sub7 uAdmin
     "Assessment item submitted successfully"
     ((submit_assessment_item 10 sub7 uAdmin db7).2) item7a a7
     (Prod.ext rfl rfl) rfl rfl⟩

lemma step_unchanged {db db2 : DB} (h : db2 = db) (hinv : LifecycleInv db) :
    LifecycleInv db2 ∧
    ∀ (aid : Nat) (x y : Assessment), findAssessment db aid = some x →
      findAssessment db2 aid = some y → allowedTransition x.status y.status := by
  subst h
  refine ⟨hinv, ?_⟩
  intro aid x y hx hy
  rw [hx] at hy
  injection hy with h2
  subst h2
  exact Or.inl rfl

/-- One lifecycle operation preserves the lifecycle invariant and moves
any assessment's status only along the forward chain. -/
lemma lifecycle_step_monotonic :
    ∀ (op : Op) (db : DB), op.isAdminUpdate = false → opFresh op db →
      LifecycleInv db →
      LifecycleInv (runOp op db) ∧
      ∀ (aid : Nat) (x y : Assessment), findAssessment db aid = some x →
        findAssessment (runOp op db) aid = some y →
        allowedTransition x.status y.status := by
  intro op db hup hfresh hinv
  cases op with
  | updateA aid data p => simp [Op.isAdminUpdate] at hup
  | createA newId cid rid p =>
    simp only [runOp]
    rcases create_shape newId cid rid p db with hsh | hsh
    · exact step_unchanged hsh hinv
    · rw [hsh]
      constructor
      · intro a2 ha2
        rcases List.mem_append.mp ha2 with hmem | hmem
        · exact ⟨(hinv a2 hmem).1, fun hN it hit => (hinv a2 hmem).2 hN it hit⟩
        · rw [List.mem_singleton] at hmem
          subst hmem
          refine ⟨Or.inl rfl, ?_⟩
          intro _ it hit
          exact hfresh.2 it hit
      · intro aid2 x y hx hy
        have hx2 : findAssessment
            { db with assessments := db.assessments ++ [newAssessment newId cid rid] }
            aid2 = some x := findAssessment_append rfl hx
        rw [hx2] at hy
        injection hy with h2
        subst h2
        exact Or.inl rfl
  | deleteA aid p =>
    simp only [runOp]
    rcases delete_shape aid p db with hsh | ⟨a0, ha0, hs0, hsh⟩
    · exact step_unchanged hsh hinv
    · rw [hsh]
      constructor
      · intro a2 ha2
        have hmem := (List.mem_filter.mp ha2).1
        exact ⟨(hinv a2 hmem).1, fun hN it hit => (hinv a2 hmem).2 hN it hit⟩
      · intro aid2 x y hx hy
        by_cases he : aid2 = aid
        · subst he
          rw [findAssessment_filter_self rfl] at hy
          exact absurd hy (by simp)
        · rw [findAssessment_filter_ne rfl he, hx] at hy
          injection hy with h2
          subst h2
          exact Or.inl rfl
  | startA aid fresh p =>
    simp only [runOp]
    rcases startA_shape aid fresh p db with hsh | ⟨a0, ha0, hs0, hsh⟩
    · exact step_unchanged hsh hinv
    · rw [hsh]
      have ha0id : a0.id = aid := (findAssessment_some ha0).2
      constructor
      · intro a2 ha2
        obtain ⟨x, hx, rfl⟩ := List.mem_map.mp ha2
        unfold startAUpd
        by_cases hc : (x.id == aid) = true
        · rw [if_pos hc]
          refine ⟨Or.inr (Or.inl rfl), ?_⟩
          intro hN
          simp at hN
        · rw [if_neg hc]
          have hxne : x.id ≠ aid := by simpa using hc
          refine ⟨(hinv x hx).1, ?_⟩
          intro hN it hit
          rcases List.mem_append.mp hit with hold | hnew
          · exact (hinv x hx).2 hN it hold
          · have hia : it.assessment_id = a0.id :=
              create_items_assessment_id a0 db fresh it hnew
            rw [hia, ha0id]
            exact fun hcontra => hxne hcontra.symm
      · intro aid2 x y hx hy
        rw [findAssessment_map aid2 (startAUpd_id aid db.now) rfl, hx,
            Option.map_some'] at hy
        injection hy with h2
        subst h2
        unfold startAUpd
        by_cases hc : (x.id == aid) = true
        · rw [if_pos hc]
          have hxa : x.id = aid := by simpa using hc
          have hxid : x.id = aid2 := (findAssessment_some hx).2
          have he : aid2 = aid := hxid.symm.trans hxa
          subst he
          have hxeq : x = a0 := find_eq_same hx ha0
          exact Or.inr (Or.inl ⟨by rw [hxeq]; exact hs0, rfl⟩)
        · rw [if_neg hc]
          exact Or.inl rfl
  | startItem iid p =>
    simp only [runOp]
    rcases startItem_shape iid p db with hsh | hsh
    · exact step_unchanged hsh hinv
    · rw [hsh]
      exact ⟨lifecycleInv_map_items db rfl rfl (startItemUpd_aid iid db.now) hinv,
             pair_of_congr db rfl⟩
  | scoreGame iid raw p =>
    simp only [runOp]
    rcases score_shape iid raw p db with hsh | ⟨resp, hsh⟩
    · exact step_unchanged hsh hinv
    · rw [hsh]
      exact ⟨lifecycleInv_map_items db rfl rfl (scoreUpd_aid iid raw resp) hinv,
             pair_of_congr db rfl⟩
  | telemetry event logId p =>
    simp only [runOp]
    rcases telemetry_shape event logId p db with hsh | hsh | ⟨fl, aid0, hsh⟩
    · exact step_unchanged hsh hinv
    · rw [hsh]
      exact ⟨lifecycleInv_congr db rfl rfl hinv, pair_of_congr db rfl⟩
    · rw [hsh]
      exact ⟨lifecycleInv_map_status_preserving db rfl rfl
               (flagUpd_status aid0 fl db.now) (flagUpd_id aid0 fl db.now) hinv,
             pair_of_map_status_preserving db rfl
               (flagUpd_status aid0 fl db.now) (flagUpd_id aid0 fl db.now)⟩
  | manualFlag aid fl p =>
    simp only [runOp]
    rcases manualFlag_shape aid fl p db with hsh | hsh
    · exact step_unchanged hsh hinv
    · rw [hsh]
      exact ⟨lifecycleInv_map_status_preserving db rfl rfl
               (flagUpd_status aid fl db.now) (flagUpd_id aid fl db.now) hinv,
             pair_of_map_status_preserving db rfl
               (flagUpd_status aid fl db.now) (flagUpd_id aid fl db.now)⟩
  | submitItem iid sub p =>
    simp only [runOp]
    rcases submit_shape iid sub p db with hsh | hsh | ⟨item0, a0, hit0, ha0, hsh⟩
    · exact step_unchanged hsh hinv
    · rw [hsh]
      exact ⟨lifecycleInv_map_items db rfl rfl (submitUpd_aid iid sub) hinv,
             pair_of_congr db rfl⟩
    · rcases agg_shape a0 { db with items := db.items.map (submitUpd iid sub) } with
        hagg | ⟨hne, hall, hagg⟩
      · rw [hsh, hagg]
        exact ⟨lifecycleInv_map_items db rfl rfl (submitUpd_aid iid sub) hinv,
               pair_of_congr db rfl⟩
      · rw [hsh, hagg]
        have ha0id : a0.id = item0.assessment_id := (findAssessment_some ha0).2
        have hitem0 : item0 ∈ db.items := (findItem_some hit0).1
        constructor
        · intro a2 ha2
          obtain ⟨x, hx, rfl⟩ := List.mem_map.mp ha2
          unfold aggUpd
          by_cases hc : (x.id == a0.id) = true
          · rw [if_pos hc]
            refine ⟨Or.inr (Or.inr rfl), ?_⟩
            intro hN
            simp at hN
          · rw [if_neg hc]
            refine ⟨(hinv x hx).1, ?_⟩
            intro hN it hit
            obtain ⟨it0, hit0m, rfl⟩ := List.mem_map.mp hit
            rw [submitUpd_aid]
            exact (hinv x hx).2 hN it0 hit0m
        · intro aid2 x y hx hy
          rw [findAssessment_map aid2 (aggUpd_id a0 _) rfl] at hy
          rw [show findAssessment { db with items := db.items.map (submitUpd iid sub) }
                aid2 = findAssessment db aid2 from findAssessment_congr rfl aid2] at hy
          rw [hx, Option.map_some'] at hy
          injection hy with h2
          subst h2
          unfold aggUpd
          by_cases hc : (x.id == a0.id) = true
          · rw [if_pos hc]
            have hxid : x.id = a0.id := by simpa using hc
            have hxmem : x ∈ db.assessments := (findAssessment_some hx).1
            rcases (hinv x hxmem).1 with hsN | hsI | hsC
            · exfalso
              exact (hinv x hxmem).2 hsN item0 hitem0 (hxid.trans ha0id).symm
            · exact Or.inr (Or.inr ⟨hsI, rfl⟩)
            · exact Or.inl (by rw [hsC])
          · rw [if_neg hc]
            exact Or.inl rfl

/-- If a lifecycle operation makes an assessment disappear from the
query, the operation was the delete endpoint, so the assessment's status
was still NOT_STARTED. -/
lemma lifecycle_vanish (op : Op) (db : DB) (hup : op.isAdminUpdate = false) :
    ∀ (aid : Nat) (x : Assessment), findAssessment db aid = some x →
      findAssessment (runOp op db) aid = none → x.status = .NOT_STARTED := by
  intro aid2 x hx hnone
  cases op with
  | updateA aid0 data p => simp [Op.isAdminUpdate] at hup
  | createA newId cid rid p =>
    simp only [runOp] at hnone
    rcases create_shape newId cid rid p db with hsh | hsh <;> rw [hsh] at hnone
    · rw [hx] at hnone; exact absurd hnone (by simp)
    · rw [findAssessment_append rfl hx] at hnone
      exact absurd hnone (by simp)
  | deleteA aid0 p =>
    simp only [runOp] at hnone
    rcases delete_shape aid0 p db with hsh | ⟨a0, ha0, hs0, hsh⟩ <;> rw [hsh] at hnone
    · rw [hx] at hnone; exact absurd hnone (by simp)
    · by_cases he : aid2 = aid0
      · subst he
        rw [find_eq_same hx ha0]
        exact hs0
      · rw [findAssessment_filter_ne rfl he, hx] at hnone
        exact absurd hnone (by simp)
  | startA aid0 fresh p =>
    simp only [runOp] at hnone
    rcases startA_shape aid0 fresh p db with hsh | ⟨a0, ha0, hs0, hsh⟩ <;>
      rw [hsh] at hnone
    · rw [hx] at hnone; exact absurd hnone (by simp)
    · rw [findAssessment_map aid2 (startAUpd_id aid0 db.now) rfl, hx] at hnone
      exact absurd hnone (by simp)
  | startItem iid p =>
    simp only [runOp] at hnone
    rcases startItem_shape iid p db with hsh | hsh <;> rw [hsh] at hnone
    · rw [hx] at hnone; exact absurd hnone (by simp)
    · have h2 : findAssessment db aid2 = none := hnone
      rw [hx] at h2
      exact absurd h2 (by simp)
  | scoreGame iid raw p =>
    simp only [runOp] at hnone
    rcases score_shape iid raw p db with hsh | ⟨resp, hsh⟩ <;> rw [hsh] at hnone
    · rw [hx] at hnone; exact absurd hnone (by simp)
    · have h2 : findAssessment db aid2 = none := hnone
      rw [hx] at h2
      exact absurd h2 (by simp)
  | telemetry event logId p =>
    simp only [runOp] at hnone
    rcases telemetry_shape event logId p db with hsh | hsh | ⟨fl, aid0, hsh⟩ <;>
      rw [hsh] at hnone
    · rw [hx] at hnone; exact absurd hnone (by simp)
    · have h2 : findAssessment db aid2 = none := hnone
      rw [hx] at h2
      exact absurd h2 (by simp)
    · rw [findAssessment_map aid2 (flagUpd_id aid0 fl db.now) rfl, hx] at hnone
      exact absurd hnone (by simp)
  | manualFlag aid0 fl p =>
    simp only [runOp] at hnone
    rcases manualFlag_shape aid0 fl p db with hsh | hsh <;> rw [hsh] at hnone
    · rw [hx] at hnone; exact absurd hnone (by simp)
    · rw [findAssessment_map aid2 (flagUpd_id aid0 fl db.now) rfl, hx] at hnone
      exact absurd hnone (by simp)
  | submitItem iid sub p =>
    simp only [runOp] at hnone
    rcases submit_shape iid sub p db with hsh | hsh | ⟨item0, a0, hit0, ha0, hsh⟩ <;>
      rw [hsh] at hnone
    · rw [hx] at hnone; exact absurd hnone (by simp)
    · have h2 : findAssessment db aid2 = none := hnone
      rw [hx] at h2
      exact absurd h2 (by simp)
    · rcases agg_shape a0 { db with items := db.items.map (submitUpd iid sub) } with
        hagg | ⟨hne, hall, hagg⟩ <;> rw [hagg] at hnone
      · have h2 : findAssessment db aid2 = none := hnone
        rw [hx] at h2
        exact absurd h2 (by simp)
      · rw [findAssessment_map aid2 (aggUpd_id a0 _) rfl] at hnone
        rw [show findAssessment { db with items := db.items.map (submitUpd iid sub) }
              aid2 = findAssessment db aid2 from findAssessment_congr rfl aid2] at hnone
        rw [hx] at hnone
        exact absurd hnone (by simp)

lemma allowedTrans_reach : ∀ s u t, allowedTransition s u → allowedReach u t →
    allowedReach s t := by
  intro s u t h1 h2
  rcases h1 with rfl | ⟨rfl, rfl⟩ | ⟨rfl, rfl⟩
  · exact h2
  · rcases h2 with rfl | ⟨h, _⟩ | ⟨_, rfl⟩
    · exact Or.inr (Or.inl ⟨rfl, Or.inl rfl⟩)
    · exact absurd h (by decide)
    · exact Or.inr (Or.inl ⟨rfl, Or.inr rfl⟩)
  · rcases h2 with rfl | ⟨h, _⟩ | ⟨h, _⟩
    · exact Or.inr (Or.inr ⟨rfl, rfl⟩)
    · exact absurd h (by decide)
    · exact absurd h (by decide)

/-- C3 (amended): status monotonicity holds for the lifecycle operations
bundled in `Op` — every mounted status-writing endpoint except the admin
PUT /assessments/{id} (admin candidate deletion removes rows but writes no
status field; see `OpX` and claim C10 for the universe that includes it).
Step level: one such operation preserves the lifecycle invariant and moves
any assessment's status only forward (stay, NOT_STARTED to IN_PROGRESS, or
IN_PROGRESS to COMPLETED).  Trace level: across any finite sequence of
such operations, the status pair observed for an assessment id lies in the
forward reachability relation — the observed status sequence is a
subsequence of NOT_STARTED, IN_PROGRESS, COMPLETED, never revisiting an
earlier state.  The admin update endpoint, excluded here, can write any
status (see the counterexample). -/
theorem claim_C3_lifecycle_monotonic :
    (∀ (op : Op) (db : DB), op.isAdminUpdate = false → opFresh op db →
      LifecycleInv db →
      LifecycleInv (runOp op db) ∧
      ∀ (aid : Nat) (x y : Assessment), findAssessment db aid = some x →
        findAssessment (runOp op db) aid = some y →
        allowedTransition x.status y.status) ∧
    (∀ (db db3 : DB), LifecycleSteps db db3 → LifecycleInv db →
      LifecycleInv db3 ∧
      ∀ (aid : Nat) (x y : Assessment), findAssessment db aid = some x →
        findAssessment db3 aid = some y →
        allowedReach x.status y.status) := by
  refine ⟨lifecycle_step_monotonic, ?_⟩
  intro db db3 hsteps
  induction hsteps with
  | refl db0 =>
    intro hinv
    refine ⟨hinv, ?_⟩
    intro aid x y hx hy
    rw [hx] at hy
    injection hy with h
    subst h
    exact Or.inl rfl
  | step dba db2 db3a op hop hfr hrun rest ih =>
    intro hinv
    obtain ⟨hinv2, hpair⟩ := lifecycle_step_monotonic op dba hop hfr hinv
    rw [hrun] at hinv2
    obtain ⟨hinv3, hreach⟩ := ih hinv2
    refine ⟨hinv3, ?_⟩
    intro aid x y hx hy
    cases hz : findAssessment db2 aid with
    | some z =>
      have h1 : allowedTransition x.status z.status :=
        hpair aid x z hx (by rw [hrun]; exact hz)
      exact allowedTrans_reach _ _ _ h1 (hreach aid z y hz hy)
    | none =>
      have hxN : x.status = .NOT_STARTED :=
        lifecycle_vanish op dba hop aid x hx (by rw [hrun]; exact hz)
      have hymem : y ∈ db3a.assessments := (findAssessment_some hy).1
      rcases (hinv3 y hymem).1 with h | h | h
      · exact Or.inl (h.trans hxN.symm)
      · exact Or.inr (Or.inl ⟨hxN, Or.inl h⟩)
      · exact Or.inr (Or.inl ⟨hxN, Or.inr h⟩)

/-- Witness for C3's amended theorem: a concrete lifecycle operation (an
item activation attempt) from a concrete state satisfying the invariant. -/
theorem claim_C3_witness :
    Op.isAdminUpdate (Op.startItem 10 uAdmin) = false ∧
    opFresh (Op.startItem 10 uAdmin) db7 ∧
    LifecycleInv db7 ∧
    (LifecycleInv (runOp (Op.startItem 10 uAdmin) db7) ∧
     ∀ (aid : Nat) (x y : Assessment), findAssessment db7 aid = some x →
       findAssessment (runOp (Op.startItem 10 uAdmin) db7) aid = some y →
       allowedTransition x.status y.status) :=
  ⟨rfl, trivial, by unfold LifecycleInv; decide,
   claim_C3_lifecycle_monotonic.1 (Op.startItem 10 uAdmin) db7 rfl trivial
     (by unfold LifecycleInv; decide)⟩

end Cognihire
